import Mathlib

/-!
# Survey-portal postback reconciliation and ledger engine: a shallow embedding

This file embeds the postback handlers of `backend/server.py` (routes
`/postback/inbrain/success`, `/postback/inbrain/failure`, `/postback/cpx`,
`/postback/admantium`) as pure Lean functions over an explicit store state,
and proves / refutes the specification's claims about them.

Modelling conventions:
* The Mongo store is a pair of lists (`users`, `transactions`); `find_one`
  is `List.find?` (first match in insertion order), `insert_one` appends,
  and `update_one` updates the first matching document only.
* `hashlib.md5(...).hexdigest()` is kept abstract as a parameter
  `md5 : String → String`: the handlers only ever compare its output for
  (case-insensitive) equality with a supplied signature, so no property
  below depends on the internals of MD5.
* Python ints are `Int`.  CPX's `points = int(amount_local)` truncates a
  float query parameter to an int; the embedding takes the already-truncated
  integer as the request field `amount_local`.
* Audit-only passthrough fields that are written but never read back by any
  handler (`RevenueAmount`/`amount_usd`/`payout`, `is_test`, `ip`/`ip_click`,
  `goal_id`/`goal_name`, `raw_data`, timestamps) are omitted from the
  transaction record; every field any handler branches on or reads back
  (`transaction_id`, `user_id`, `provider`, `reward_type`, `points`,
  `status`, `offer_id`, `offer_name`) is kept.
-/

namespace SurveyPortal

/-- A FastAPI `PlainTextResponse`: body text and HTTP status code
(200 when the source passes no `status_code`). -/
structure Resp where
  text : String
  code : Nat
deriving Repr, DecidableEq

/-- One document of the `users` collection (the counter fields mutated by
the postback handlers, plus the identity key). -/
structure Account where
  user_id : String
  balance : Int
  total_earned : Int
  surveys_completed : Int
deriving Repr, DecidableEq

/-- One document of the `transactions` collection (behaviour-relevant
fields; see the module docstring for the omitted audit-only fields). -/
structure Txn where
  transaction_id : String
  user_id : String
  provider : String
  reward_type : String
  points : Int
  status : String
  offer_id : String := ""
  offer_name : String := ""
deriving Repr, DecidableEq

/-- The store state: the `users` and `transactions` collections, in
insertion order. -/
structure St where
  users : List Account
  transactions : List Txn
deriving Repr, DecidableEq

/-- `db.users.find_one({"user_id": uid})`. -/
def findUser (st : St) (uid : String) : Option Account :=
  st.users.find? (fun a => a.user_id == uid)

/-- `db.transactions.find_one({"transaction_id": tid})` — note the source
filters by `transaction_id` alone, not by provider. -/
def findTxn (st : St) (tid : String) : Option Txn :=
  st.transactions.find? (fun t => t.transaction_id == tid)

/-- Mongo `update_one`: rewrite the first matching document only. -/
def updateFirst (p : α → Bool) (f : α → α) : List α → List α
  | [] => []
  | x :: xs => if p x then f x :: xs else x :: updateFirst p f xs

/-- The `$inc` document `{"balance": db_, "total_earned": dt,
"surveys_completed": ds}` applied to one account. -/
def bumpAccount (db_ dt ds : Int) (a : Account) : Account :=
  { a with
    balance := a.balance + db_
    total_earned := a.total_earned + dt
    surveys_completed := a.surveys_completed + ds }

/-- `db.users.update_one` with `$inc` on the three counter fields. -/
def incUser (st : St) (uid : String) (db_ dt ds : Int) : St :=
  { st with users := updateFirst (fun a => a.user_id == uid) (bumpAccount db_ dt ds) st.users }

/-- `db.transactions.insert_one(t)`. -/
def insertTxn (st : St) (t : Txn) : St :=
  { st with transactions := st.transactions ++ [t] }

/-- The `$set` document `{"status": s}` applied to one transaction. -/
def withStatus (s : String) (t : Txn) : Txn :=
  { t with status := s }

/-- `db.transactions.update_one` with `$set` on `status`. -/
def setTxnStatus (st : St) (tid s : String) : St :=
  { st with transactions := updateFirst (fun t => t.transaction_id == tid) (withStatus s) st.transactions }

/-- Python's `str.lower()` (as applied to hex digests and supplied
signatures).  Defined directly over the character list — extensionally the
ASCII lowering `String.toLower` computes — so that concrete instances
evaluate in the kernel. -/
def pyLower (s : String) : String := ⟨s.data.map Char.toLower⟩

/-- The fields of an Inbrain callback body that the handlers read
(`Sig`, `PanelistId`, `RewardId`, `Reward`, `RewardType`). -/
structure InbrainReq where
  Sig : String
  PanelistId : String
  RewardId : String
  Reward : Int
  RewardType : String
deriving Repr, DecidableEq

/-- `inbrain_success_callback` (`POST /postback/inbrain/success`),
`backend/server.py` lines 354–430.  `callback_secret` is
`INBRAIN_CONFIG["callback_secret"]`. -/
def inbrain_success_callback (md5 : String → String) (callback_secret : String)
    (r : InbrainReq) (st : St) : St × Resp :=
  let expected_sig := md5 (r.PanelistId ++ r.RewardId ++ callback_secret)
  if pyLower r.Sig ≠ pyLower expected_sig then
    (st, ⟨"SIGNATURE_MISMATCH", 400⟩)
  else
    match findTxn st r.RewardId with
    | some _ => (st, ⟨"OK", 200⟩)
    | none =>
      match findUser st r.PanelistId with
      | none => (st, ⟨"USER_NOT_FOUND", 404⟩)
      | some _ =>
        if 0 < r.Reward then
          let st1 := incUser st r.PanelistId r.Reward r.Reward 1
          let st2 := insertTxn st1
            { transaction_id := r.RewardId, user_id := r.PanelistId,
              provider := "inbrain", reward_type := "credit",
              points := r.Reward, status := "completed",
              offer_name := r.RewardType }
          (st2, ⟨"OK", 200⟩)
        else (st, ⟨"OK", 200⟩)

/-- `inbrain_failure_callback` (`POST /postback/inbrain/failure`),
`backend/server.py` lines 432–489.  Note: the `$inc` touches only
`balance` and `total_earned`, and the transaction record is inserted
whether or not the user exists. -/
def inbrain_failure_callback (md5 : String → String) (callback_secret : String)
    (r : InbrainReq) (st : St) : St × Resp :=
  let expected_sig := md5 (r.PanelistId ++ r.RewardId ++ callback_secret)
  if pyLower r.Sig ≠ pyLower expected_sig then
    (st, ⟨"SIGNATURE_MISMATCH", 400⟩)
  else
    match findTxn st r.RewardId with
    | some _ => (st, ⟨"OK", 200⟩)
    | none =>
      let st1 :=
        if 0 < r.Reward then
          match findUser st r.PanelistId with
          | some _ => incUser st r.PanelistId r.Reward r.Reward 0
          | none => st
        else st
      let st2 := insertTxn st1
        { transaction_id := r.RewardId, user_id := r.PanelistId,
          provider := "inbrain", reward_type := "disqualification",
          points := r.Reward, status := "disqualified",
          offer_name := r.RewardType }
      (st2, ⟨"OK", 200⟩)

/-- The query parameters of a CPX postback that the handler reads.
`secure_hash` is the raw `secure_hash` query parameter (alias of the
Python variable `hash`), defaulting to `""` when absent. -/
structure CpxReq where
  status : Int
  trans_id : String
  user_id : String
  amount_local : Int
  offer_id : String := ""
  secure_hash : String := ""
deriving Repr, DecidableEq

/-- The body of `cpx_research_callback` after the secure-hash gate,
`backend/server.py` lines 523–604. -/
def cpx_process (r : CpxReq) (st : St) : St × Resp :=
  let existing := findTxn st r.trans_id
  match findUser st r.user_id with
  | none => (st, ⟨"0", 200⟩)
  | some _ =>
    let points := r.amount_local
    if r.status = 1 then
      match existing with
      | some _ => (st, ⟨"1", 200⟩)
      | none =>
        let st1 := incUser st r.user_id points points 1
        let st2 := insertTxn st1
          { transaction_id := r.trans_id, user_id := r.user_id,
            provider := "cpx_research", reward_type := "credit",
            points := points, status := "completed",
            offer_id := r.offer_id }
        (st2, ⟨"1", 200⟩)
    else if r.status = 2 then
      if (match existing with
          | some e => e.status == "reversed"
          | none => false) then
        (st, ⟨"1", 200⟩)
      else
        let st1 := incUser st r.user_id (-points) (-points) (-1)
        let st2 :=
          match existing with
          | some _ => setTxnStatus st1 r.trans_id "reversed"
          | none => insertTxn st1
              { transaction_id := r.trans_id, user_id := r.user_id,
                provider := "cpx_research", reward_type := "reversal",
                points := -points, status := "reversed",
                offer_id := r.offer_id }
        (st2, ⟨"1", 200⟩)
    else (st, ⟨"1", 200⟩)

/-- `cpx_research_callback` (`GET /postback/cpx`), `backend/server.py`
lines 491–608.  `secure_hash_cfg` is `CPX_CONFIG["secure_hash"]`; the
Python truthiness test `if CPX_CONFIG["secure_hash"] and hash:` is the
two non-emptiness tests. -/
def cpx_research_callback (md5 : String → String) (secure_hash_cfg : String)
    (r : CpxReq) (st : St) : St × Resp :=
  if secure_hash_cfg ≠ "" ∧ r.secure_hash ≠ "" then
    let expected_hash := md5 (r.trans_id ++ "-" ++ secure_hash_cfg)
    if pyLower r.secure_hash ≠ pyLower expected_hash then
      (st, ⟨"0", 200⟩)
    else cpx_process r st
  else cpx_process r st

/-- The query parameters of an Admantium postback that the handler reads. -/
structure AdmantiumReq where
  user_id : String
  reward : Int
  status : String
  transaction_id : String
  offer_id : String := ""
  offer_name : String := ""
  signature : String := ""
deriving Repr, DecidableEq

/-- `admantium_callback` (`GET /postback/admantium`), `backend/server.py`
lines 610–739.  `secret` is `ADMANTIUM_CONFIG["secret"]`; the signed
string is `f"{user_id}{transaction_id}{reward}{secret}"`. -/
def admantium_callback (md5 : String → String) (secret : String)
    (r : AdmantiumReq) (st : St) : St × Resp :=
  let expected_sig := md5 (r.user_id ++ r.transaction_id ++ toString r.reward ++ secret)
  if pyLower r.signature ≠ pyLower expected_sig then
    (st, ⟨"ERROR: Signature doesn't match", 200⟩)
  else
    match findUser st r.user_id with
    | none => (st, ⟨"ERROR: User not found", 200⟩)
    | some _ =>
      let existing := findTxn st r.transaction_id
      if r.status = "credited" then
        if (match existing with
            | some e => e.status == "completed"
            | none => false) then
          (st, ⟨"OK", 200⟩)
        else
          let st1 := incUser st r.user_id r.reward r.reward 1
          let st2 := insertTxn st1
            { transaction_id := r.transaction_id, user_id := r.user_id,
              provider := "admantium", reward_type := "credit",
              points := r.reward, status := "completed",
              offer_id := r.offer_id, offer_name := r.offer_name }
          (st2, ⟨"OK", 200⟩)
      else if r.status = "rejected" then
        if (match existing with
            | some e => e.status == "rejected"
            | none => false) then
          (st, ⟨"OK", 200⟩)
        else
          let points_to_deduct := |r.reward|
          let st1 := incUser st r.user_id (-points_to_deduct) (-points_to_deduct) (-1)
          let st2 :=
            match existing with
            | some _ => setTxnStatus st1 r.transaction_id "rejected"
            | none => insertTxn st1
                { transaction_id := r.transaction_id, user_id := r.user_id,
                  provider := "admantium", reward_type := "reversal",
                  points := -points_to_deduct, status := "rejected",
                  offer_id := r.offer_id, offer_name := r.offer_name }
          (st2, ⟨"OK", 200⟩)
      else (st, ⟨"OK", 200⟩)

/-! ## Observers -/

/-- The balance the store shows for `uid` (0 when the account is absent). -/
def balanceOf (st : St) (uid : String) : Int :=
  match findUser st uid with
  | some a => a.balance
  | none => 0

/-- The `total_earned` counter the store shows for `uid`. -/
def totalEarnedOf (st : St) (uid : String) : Int :=
  match findUser st uid with
  | some a => a.total_earned
  | none => 0

/-- The `surveys_completed` counter the store shows for `uid`. -/
def surveysOf (st : St) (uid : String) : Int :=
  match findUser st uid with
  | some a => a.surveys_completed
  | none => 0

/-- How many transaction rows carry the external id `tid`. -/
def txnCount (st : St) (tid : String) : Nat :=
  (st.transactions.filter (fun t => t.transaction_id == tid)).length

/-- The sum of the signed `points` values of all of `uid`'s transaction
rows — the spec's replay of the transaction log. -/
def signedSum (st : St) (uid : String) : Int :=
  ((st.transactions.filter (fun t => t.user_id == uid)).map Txn.points).sum

/-! ## Store lemmas -/

theorem updateFirst_of_find?_none {p : α → Bool} {f : α → α} {l : List α}
    (h : l.find? p = none) : updateFirst p f l = l := by
  induction l with
  | nil => rfl
  | cons x xs ih =>
    by_cases hx : p x
    · simp [List.find?_cons_of_pos _ hx] at h
    · simp [updateFirst, hx, ih (by simpa [List.find?_cons_of_neg _ hx] using h)]

theorem find?_updateFirst_self (p : α → Bool) (f : α → α)
    (hf : ∀ x, p (f x) = p x) (l : List α) :
    (updateFirst p f l).find? p = (l.find? p).map f := by
  induction l with
  | nil => rfl
  | cons x xs ih =>
    by_cases hx : p x
    · simp [updateFirst, hx, List.find?_cons_of_pos, hf x ▸ hx]
    · simp [updateFirst, hx, List.find?_cons_of_neg _ hx, ih]

theorem find?_updateFirst_disjoint (p q : α → Bool) (f : α → α)
    (hq : ∀ x, q (f x) = q x) (hdisj : ∀ x, p x = true → q x = false)
    (l : List α) :
    (updateFirst p f l).find? q = l.find? q := by
  induction l with
  | nil => rfl
  | cons x xs ih =>
    by_cases hx : p x
    · have hqx : ¬ q x := by simp [hdisj x hx]
      have hqfx : ¬ q (f x) := by simp [hq x, hdisj x hx]
      simp [updateFirst, hx, List.find?_cons_of_neg _ hqx, List.find?_cons_of_neg _ hqfx]
    · by_cases hqx : q x
      · simp [updateFirst, hx, List.find?_cons_of_pos _ hqx]
      · simp [updateFirst, hx, List.find?_cons_of_neg _ hqx, ih]

theorem findUser_incUser (st : St) (uid uid' : String) (db_ dt ds : Int) :
    findUser (incUser st uid db_ dt ds) uid' =
      if uid' = uid then (findUser st uid).map (bumpAccount db_ dt ds)
      else findUser st uid' := by
  by_cases h : uid' = uid
  · subst h
    simpa [findUser, incUser] using
      find?_updateFirst_self (fun a : Account => a.user_id == uid')
        (bumpAccount db_ dt ds) (fun x => rfl) st.users
  · simp only [findUser, incUser, if_neg h]
    exact find?_updateFirst_disjoint (fun a : Account => a.user_id == uid)
      (fun a : Account => a.user_id == uid') (bumpAccount db_ dt ds)
      (fun x => rfl)
      (fun x hx => by
        simp only [beq_iff_eq] at hx ⊢
        simp only [hx]
        exact decide_eq_false (fun hh => h (Eq.symm hh))) st.users

theorem findTxn_incUser (st : St) (uid : String) (db_ dt ds : Int) (tid : String) :
    findTxn (incUser st uid db_ dt ds) tid = findTxn st tid := rfl

theorem findUser_insertTxn (st : St) (t : Txn) (uid : String) :
    findUser (insertTxn st t) uid = findUser st uid := rfl

theorem findUser_setTxnStatus (st : St) (tid s uid : String) :
    findUser (setTxnStatus st tid s) uid = findUser st uid := rfl

theorem findTxn_insertTxn (st : St) (t : Txn) (tid : String) :
    findTxn (insertTxn st t) tid =
      (findTxn st tid).or (if t.transaction_id = tid then some t else none) := by
  by_cases h : t.transaction_id = tid <;>
    simp [findTxn, insertTxn, List.find?_append, h]

theorem findTxn_setTxnStatus_self (st : St) (tid s : String) :
    findTxn (setTxnStatus st tid s) tid = (findTxn st tid).map (withStatus s) := by
  simpa [findTxn, setTxnStatus] using
    find?_updateFirst_self (fun t : Txn => t.transaction_id == tid)
      (withStatus s) (fun x => rfl) st.transactions

theorem balanceOf_incUser_self (st : St) (uid : String) (db_ dt ds : Int)
    (h : (findUser st uid).isSome) :
    balanceOf (incUser st uid db_ dt ds) uid = balanceOf st uid + db_ := by
  rcases Option.isSome_iff_exists.mp h with ⟨a, ha⟩
  simp [balanceOf, findUser_incUser, ha, bumpAccount]

theorem totalEarnedOf_incUser_self (st : St) (uid : String) (db_ dt ds : Int)
    (h : (findUser st uid).isSome) :
    totalEarnedOf (incUser st uid db_ dt ds) uid = totalEarnedOf st uid + dt := by
  rcases Option.isSome_iff_exists.mp h with ⟨a, ha⟩
  simp [totalEarnedOf, findUser_incUser, ha, bumpAccount]

theorem surveysOf_incUser_self (st : St) (uid : String) (db_ dt ds : Int)
    (h : (findUser st uid).isSome) :
    surveysOf (incUser st uid db_ dt ds) uid = surveysOf st uid + ds := by
  rcases Option.isSome_iff_exists.mp h with ⟨a, ha⟩
  simp [surveysOf, findUser_incUser, ha, bumpAccount]

theorem balanceOf_insertTxn (st : St) (t : Txn) (uid : String) :
    balanceOf (insertTxn st t) uid = balanceOf st uid := rfl

theorem totalEarnedOf_insertTxn (st : St) (t : Txn) (uid : String) :
    totalEarnedOf (insertTxn st t) uid = totalEarnedOf st uid := rfl

theorem surveysOf_insertTxn (st : St) (t : Txn) (uid : String) :
    surveysOf (insertTxn st t) uid = surveysOf st uid := rfl

theorem balanceOf_setTxnStatus (st : St) (tid s : String) (uid : String) :
    balanceOf (setTxnStatus st tid s) uid = balanceOf st uid := rfl

theorem totalEarnedOf_setTxnStatus (st : St) (tid s : String) (uid : String) :
    totalEarnedOf (setTxnStatus st tid s) uid = totalEarnedOf st uid := rfl

theorem txnCount_insertTxn (st : St) (t : Txn) (tid : String) :
    txnCount (insertTxn st t) tid =
      txnCount st tid + (if t.transaction_id == tid then 1 else 0) := by
  by_cases h : t.transaction_id == tid <;>
    simp [txnCount, insertTxn, List.filter_append, h]

theorem signedSum_insertTxn (st : St) (t : Txn) (uid : String) :
    signedSum (insertTxn st t) uid =
      signedSum st uid + (if t.user_id == uid then t.points else 0) := by
  by_cases h : t.user_id == uid <;>
    simp [signedSum, insertTxn, List.filter_append, h]

theorem signedSum_incUser (st : St) (uid' uid : String) (db_ dt ds : Int) :
    signedSum (incUser st uid' db_ dt ds) uid = signedSum st uid := rfl

/-! ## Branch lemmas: `inbrain_success_callback` -/

/-- The signed string of the Inbrain callbacks,
`MD5(PanelistId + RewardId + CallbackSecret)`. -/
def inbrainExpectedSig (md5 : String → String) (secret : String) (r : InbrainReq) : String :=
  md5 (r.PanelistId ++ r.RewardId ++ secret)

theorem ibs_sig_reject (md5 : String → String) (secret : String) (r : InbrainReq) (st : St)
    (h : pyLower r.Sig ≠ pyLower (inbrainExpectedSig md5 secret r)) :
    inbrain_success_callback md5 secret r st = (st, ⟨"SIGNATURE_MISMATCH", 400⟩) := by
  simp [inbrain_success_callback, inbrainExpectedSig] at h ⊢
  simp [h]

theorem ibs_dup (md5 : String → String) (secret : String) (r : InbrainReq) (st : St) (e : Txn)
    (hsig : pyLower r.Sig = pyLower (inbrainExpectedSig md5 secret r))
    (hdup : findTxn st r.RewardId = some e) :
    inbrain_success_callback md5 secret r st = (st, ⟨"OK", 200⟩) := by
  simp [inbrain_success_callback, inbrainExpectedSig] at hsig ⊢
  simp [hsig, hdup]

theorem ibs_user_none (md5 : String → String) (secret : String) (r : InbrainReq) (st : St)
    (hsig : pyLower r.Sig = pyLower (inbrainExpectedSig md5 secret r))
    (hdup : findTxn st r.RewardId = none)
    (huser : findUser st r.PanelistId = none) :
    inbrain_success_callback md5 secret r st = (st, ⟨"USER_NOT_FOUND", 404⟩) := by
  simp [inbrain_success_callback, inbrainExpectedSig] at hsig ⊢
  simp [hsig, hdup, huser]

/-- The transaction row the Inbrain success handler records. -/
def inbrainCreditRow (r : InbrainReq) : Txn :=
  { transaction_id := r.RewardId, user_id := r.PanelistId,
    provider := "inbrain", reward_type := "credit",
    points := r.Reward, status := "completed",
    offer_name := r.RewardType }

theorem ibs_credit (md5 : String → String) (secret : String) (r : InbrainReq) (st : St) (a : Account)
    (hsig : pyLower r.Sig = pyLower (inbrainExpectedSig md5 secret r))
    (hdup : findTxn st r.RewardId = none)
    (huser : findUser st r.PanelistId = some a)
    (hpos : 0 < r.Reward) :
    inbrain_success_callback md5 secret r st =
      (insertTxn (incUser st r.PanelistId r.Reward r.Reward 1) (inbrainCreditRow r),
       ⟨"OK", 200⟩) := by
  simp [inbrain_success_callback, inbrainExpectedSig] at hsig ⊢
  simp [hsig, hdup, huser, hpos, inbrainCreditRow]

theorem ibs_nonpos (md5 : String → String) (secret : String) (r : InbrainReq) (st : St) (a : Account)
    (hsig : pyLower r.Sig = pyLower (inbrainExpectedSig md5 secret r))
    (hdup : findTxn st r.RewardId = none)
    (huser : findUser st r.PanelistId = some a)
    (hpos : ¬ 0 < r.Reward) :
    inbrain_success_callback md5 secret r st = (st, ⟨"OK", 200⟩) := by
  simp [inbrain_success_callback, inbrainExpectedSig] at hsig ⊢
  simp [hsig, hdup, huser, hpos]

/-! ## Branch lemmas: `inbrain_failure_callback` -/

theorem ibf_sig_reject (md5 : String → String) (secret : String) (r : InbrainReq) (st : St)
    (h : pyLower r.Sig ≠ pyLower (inbrainExpectedSig md5 secret r)) :
    inbrain_failure_callback md5 secret r st = (st, ⟨"SIGNATURE_MISMATCH", 400⟩) := by
  simp [inbrain_failure_callback, inbrainExpectedSig] at h ⊢
  simp [h]

theorem ibf_dup (md5 : String → String) (secret : String) (r : InbrainReq) (st : St) (e : Txn)
    (hsig : pyLower r.Sig = pyLower (inbrainExpectedSig md5 secret r))
    (hdup : findTxn st r.RewardId = some e) :
    inbrain_failure_callback md5 secret r st = (st, ⟨"OK", 200⟩) := by
  simp [inbrain_failure_callback, inbrainExpectedSig] at hsig ⊢
  simp [hsig, hdup]

/-- The transaction row the Inbrain failure handler records. -/
def inbrainDisqRow (r : InbrainReq) : Txn :=
  { transaction_id := r.RewardId, user_id := r.PanelistId,
    provider := "inbrain", reward_type := "disqualification",
    points := r.Reward, status := "disqualified",
    offer_name := r.RewardType }

theorem ibf_user_none (md5 : String → String) (secret : String) (r : InbrainReq) (st : St)
    (hsig : pyLower r.Sig = pyLower (inbrainExpectedSig md5 secret r))
    (hdup : findTxn st r.RewardId = none)
    (huser : findUser st r.PanelistId = none) :
    inbrain_failure_callback md5 secret r st = (insertTxn st (inbrainDisqRow r), ⟨"OK", 200⟩) := by
  simp [inbrain_failure_callback, inbrainExpectedSig] at hsig ⊢
  by_cases hpos : 0 < r.Reward <;>
    simp [hsig, hdup, huser, hpos, inbrainDisqRow]

theorem ibf_credit (md5 : String → String) (secret : String) (r : InbrainReq) (st : St) (a : Account)
    (hsig : pyLower r.Sig = pyLower (inbrainExpectedSig md5 secret r))
    (hdup : findTxn st r.RewardId = none)
    (huser : findUser st r.PanelistId = some a)
    (hpos : 0 < r.Reward) :
    inbrain_failure_callback md5 secret r st =
      (insertTxn (incUser st r.PanelistId r.Reward r.Reward 0) (inbrainDisqRow r),
       ⟨"OK", 200⟩) := by
  simp [inbrain_failure_callback, inbrainExpectedSig] at hsig ⊢
  simp [hsig, hdup, huser, hpos, inbrainDisqRow]

/-! ## Branch lemmas: `cpx_research_callback` -/

/-- The CPX digest, `MD5(trans_id + "-" + app_secure_hash)`. -/
def cpxExpectedHash (md5 : String → String) (cfg : String) (r : CpxReq) : String :=
  md5 (r.trans_id ++ "-" ++ cfg)

/-- The secure-hash gate lets the request through: the configured secret or
the supplied hash is empty (check skipped), or the digests agree. -/
def CpxAccepted (md5 : String → String) (cfg : String) (r : CpxReq) : Prop :=
  cfg = "" ∨ r.secure_hash = "" ∨
    pyLower r.secure_hash = pyLower (cpxExpectedHash md5 cfg r)

instance (md5 : String → String) (cfg : String) (r : CpxReq) :
    Decidable (CpxAccepted md5 cfg r) := by
  unfold CpxAccepted; infer_instance

theorem cpx_gate_skip (md5 : String → String) (cfg : String) (r : CpxReq) (st : St)
    (h : CpxAccepted md5 cfg r) :
    cpx_research_callback md5 cfg r st = cpx_process r st := by
  rcases h with h | h | h <;>
    simp [cpx_research_callback, cpxExpectedHash, h]

theorem cpx_gate_reject (md5 : String → String) (cfg : String) (r : CpxReq) (st : St)
    (hcfg : cfg ≠ "") (hh : r.secure_hash ≠ "")
    (h : pyLower r.secure_hash ≠ pyLower (cpxExpectedHash md5 cfg r)) :
    cpx_research_callback md5 cfg r st = (st, ⟨"0", 200⟩) := by
  simp [cpx_research_callback, cpxExpectedHash, hcfg, hh] at h ⊢
  simp [h]

theorem cpx_process_user_none (r : CpxReq) (st : St)
    (huser : findUser st r.user_id = none) :
    cpx_process r st = (st, ⟨"0", 200⟩) := by
  simp [cpx_process, huser]

/-- The transaction row the CPX handler records for a completion. -/
def cpxCreditRow (r : CpxReq) : Txn :=
  { transaction_id := r.trans_id, user_id := r.user_id,
    provider := "cpx_research", reward_type := "credit",
    points := r.amount_local, status := "completed",
    offer_id := r.offer_id }

/-- The transaction row the CPX handler records for a reversal that
matches no prior transaction. -/
def cpxReversalRow (r : CpxReq) : Txn :=
  { transaction_id := r.trans_id, user_id := r.user_id,
    provider := "cpx_research", reward_type := "reversal",
    points := -r.amount_local, status := "reversed",
    offer_id := r.offer_id }

theorem cpx_process_credit (r : CpxReq) (st : St) (a : Account)
    (huser : findUser st r.user_id = some a)
    (hdup : findTxn st r.trans_id = none)
    (hstat : r.status = 1) :
    cpx_process r st =
      (insertTxn (incUser st r.user_id r.amount_local r.amount_local 1) (cpxCreditRow r),
       ⟨"1", 200⟩) := by
  simp [cpx_process, huser, hdup, hstat, cpxCreditRow]

theorem cpx_process_credit_dup (r : CpxReq) (st : St) (a : Account) (e : Txn)
    (huser : findUser st r.user_id = some a)
    (hdup : findTxn st r.trans_id = some e)
    (hstat : r.status = 1) :
    cpx_process r st = (st, ⟨"1", 200⟩) := by
  simp [cpx_process, huser, hdup, hstat]

theorem cpx_process_rev_dup (r : CpxReq) (st : St) (a : Account) (e : Txn)
    (huser : findUser st r.user_id = some a)
    (hdup : findTxn st r.trans_id = some e)
    (hrev : e.status = "reversed")
    (hstat : r.status = 2) :
    cpx_process r st = (st, ⟨"1", 200⟩) := by
  simp [cpx_process, huser, hdup, hstat, hrev]

theorem cpx_process_rev_flip (r : CpxReq) (st : St) (a : Account) (e : Txn)
    (huser : findUser st r.user_id = some a)
    (hdup : findTxn st r.trans_id = some e)
    (hrev : e.status ≠ "reversed")
    (hstat : r.status = 2) :
    cpx_process r st =
      (setTxnStatus (incUser st r.user_id (-r.amount_local) (-r.amount_local) (-1))
        r.trans_id "reversed",
       ⟨"1", 200⟩) := by
  simp [cpx_process, huser, hdup, hstat, hrev]

theorem cpx_process_rev_fresh (r : CpxReq) (st : St) (a : Account)
    (huser : findUser st r.user_id = some a)
    (hdup : findTxn st r.trans_id = none)
    (hstat : r.status = 2) :
    cpx_process r st =
      (insertTxn (incUser st r.user_id (-r.amount_local) (-r.amount_local) (-1))
        (cpxReversalRow r),
       ⟨"1", 200⟩) := by
  simp [cpx_process, huser, hdup, hstat, cpxReversalRow]

/-! ## Branch lemmas: `admantium_callback` -/

/-- The Admantium digest,
`MD5(user_id + transaction_id + reward + secret)`. -/
def admExpectedSig (md5 : String → String) (secret : String) (r : AdmantiumReq) : String :=
  md5 (r.user_id ++ r.transaction_id ++ toString r.reward ++ secret)

theorem adm_sig_reject (md5 : String → String) (secret : String) (r : AdmantiumReq) (st : St)
    (h : pyLower r.signature ≠ pyLower (admExpectedSig md5 secret r)) :
    admantium_callback md5 secret r st = (st, ⟨"ERROR: Signature doesn't match", 200⟩) := by
  simp [admantium_callback, admExpectedSig] at h ⊢
  simp [h]

theorem adm_user_none (md5 : String → String) (secret : String) (r : AdmantiumReq) (st : St)
    (hsig : pyLower r.signature = pyLower (admExpectedSig md5 secret r))
    (huser : findUser st r.user_id = none) :
    admantium_callback md5 secret r st = (st, ⟨"ERROR: User not found", 200⟩) := by
  simp [admantium_callback, admExpectedSig] at hsig ⊢
  simp [hsig, huser]

/-- The transaction row the Admantium handler records for a credit. -/
def admCreditRow (r : AdmantiumReq) : Txn :=
  { transaction_id := r.transaction_id, user_id := r.user_id,
    provider := "admantium", reward_type := "credit",
    points := r.reward, status := "completed",
    offer_id := r.offer_id, offer_name := r.offer_name }

/-- The transaction row the Admantium handler records for a rejection that
matches no prior transaction. -/
def admReversalRow (r : AdmantiumReq) : Txn :=
  { transaction_id := r.transaction_id, user_id := r.user_id,
    provider := "admantium", reward_type := "reversal",
    points := -|r.reward|, status := "rejected",
    offer_id := r.offer_id, offer_name := r.offer_name }

theorem adm_credit_dup (md5 : String → String) (secret : String) (r : AdmantiumReq) (st : St)
    (a : Account) (e : Txn)
    (hsig : pyLower r.signature = pyLower (admExpectedSig md5 secret r))
    (huser : findUser st r.user_id = some a)
    (hdup : findTxn st r.transaction_id = some e)
    (hcomp : e.status = "completed")
    (hstat : r.status = "credited") :
    admantium_callback md5 secret r st = (st, ⟨"OK", 200⟩) := by
  simp [admantium_callback, admExpectedSig] at hsig ⊢
  simp [hsig, huser, hdup, hcomp, hstat]

theorem adm_credit_fresh (md5 : String → String) (secret : String) (r : AdmantiumReq) (st : St)
    (a : Account)
    (hsig : pyLower r.signature = pyLower (admExpectedSig md5 secret r))
    (huser : findUser st r.user_id = some a)
    (hdup : findTxn st r.transaction_id = none)
    (hstat : r.status = "credited") :
    admantium_callback md5 secret r st =
      (insertTxn (incUser st r.user_id r.reward r.reward 1) (admCreditRow r), ⟨"OK", 200⟩) := by
  simp [admantium_callback, admExpectedSig] at hsig ⊢
  simp [hsig, huser, hdup, hstat, admCreditRow]

theorem adm_credit_noncompleted (md5 : String → String) (secret : String) (r : AdmantiumReq)
    (st : St) (a : Account) (e : Txn)
    (hsig : pyLower r.signature = pyLower (admExpectedSig md5 secret r))
    (huser : findUser st r.user_id = some a)
    (hdup : findTxn st r.transaction_id = some e)
    (hcomp : e.status ≠ "completed")
    (hstat : r.status = "credited") :
    admantium_callback md5 secret r st =
      (insertTxn (incUser st r.user_id r.reward r.reward 1) (admCreditRow r), ⟨"OK", 200⟩) := by
  simp [admantium_callback, admExpectedSig] at hsig ⊢
  simp [hsig, huser, hdup, hcomp, hstat, admCreditRow]

theorem adm_rej_dup (md5 : String → String) (secret : String) (r : AdmantiumReq) (st : St)
    (a : Account) (e : Txn)
    (hsig : pyLower r.signature = pyLower (admExpectedSig md5 secret r))
    (huser : findUser st r.user_id = some a)
    (hdup : findTxn st r.transaction_id = some e)
    (hrej : e.status = "rejected")
    (hstat : r.status = "rejected") :
    admantium_callback md5 secret r st = (st, ⟨"OK", 200⟩) := by
  simp [admantium_callback, admExpectedSig] at hsig ⊢
  simp [hsig, huser, hdup, hrej, hstat]

theorem adm_rej_flip (md5 : String → String) (secret : String) (r : AdmantiumReq) (st : St)
    (a : Account) (e : Txn)
    (hsig : pyLower r.signature = pyLower (admExpectedSig md5 secret r))
    (huser : findUser st r.user_id = some a)
    (hdup : findTxn st r.transaction_id = some e)
    (hrej : e.status ≠ "rejected")
    (hstat : r.status = "rejected") :
    admantium_callback md5 secret r st =
      (setTxnStatus (incUser st r.user_id (-|r.reward|) (-|r.reward|) (-1))
        r.transaction_id "rejected",
       ⟨"OK", 200⟩) := by
  simp [admantium_callback, admExpectedSig] at hsig ⊢
  simp [hsig, huser, hdup, hrej, hstat]

theorem adm_rej_fresh (md5 : String → String) (secret : String) (r : AdmantiumReq) (st : St)
    (a : Account)
    (hsig : pyLower r.signature = pyLower (admExpectedSig md5 secret r))
    (huser : findUser st r.user_id = some a)
    (hdup : findTxn st r.transaction_id = none)
    (hstat : r.status = "rejected") :
    admantium_callback md5 secret r st =
      (insertTxn (incUser st r.user_id (-|r.reward|) (-|r.reward|) (-1)) (admReversalRow r),
       ⟨"OK", 200⟩) := by
  simp [admantium_callback, admExpectedSig] at hsig ⊢
  simp [hsig, huser, hdup, hstat, admReversalRow]

/-! ## Interleaving semantics

FastAPI runs each inbound postback as an independent concurrent task; the
only suspension points are the awaited Mongo calls (`find_one`,
`update_one`, `insert_one`).  A handler is modelled as a resumption over
those atomic store operations, and two concurrent deliveries as an
interleaved execution driven by a schedule. -/

/-- A handler viewed as a sequence of atomic store operations, one
constructor per awaited Mongo call, in source order. -/
inductive Proc where
  | done (resp : Resp)
  | findTxnOp (tid : String) (k : Option Txn → Proc)
  | findUserOp (uid : String) (k : Option Account → Proc)
  | incUserOp (uid : String) (db_ dt ds : Int) (k : Proc)
  | insertTxnOp (t : Txn) (k : Proc)

/-- One atomic store operation of a task. -/
def stepProc : Proc → St → Proc × St
  | .done r, st => (.done r, st)
  | .findTxnOp tid k, st => (k (findTxn st tid), st)
  | .findUserOp uid k, st => (k (findUser st uid), st)
  | .incUserOp uid db_ dt ds k, st => (k, incUser st uid db_ dt ds)
  | .insertTxnOp t k, st => (k, insertTxn st t)

/-- Run two concurrent tasks under a schedule: `true` steps the first
task, `false` the second. -/
def exec2 : List Bool → Proc → Proc → St → St
  | [], _, _, st => st
  | true :: sch, p, q, st =>
    match stepProc p st with
    | (p', st') => exec2 sch p' q st'
  | false :: sch, p, q, st =>
    match stepProc q st with
    | (q', st') => exec2 sch p q' st'

/-- `inbrain_success_callback` decomposed into its awaited store
operations (duplicate check, user lookup, `$inc`, insert), exactly in
source order: the duplicate check and the writes are separate atomic
operations. -/
def inbrainSuccessProc (md5 : String → String) (callback_secret : String)
    (r : InbrainReq) : Proc :=
  let expected_sig := md5 (r.PanelistId ++ r.RewardId ++ callback_secret)
  if pyLower r.Sig ≠ pyLower expected_sig then
    .done ⟨"SIGNATURE_MISMATCH", 400⟩
  else
    .findTxnOp r.RewardId fun
      | some _ => .done ⟨"OK", 200⟩
      | none => .findUserOp r.PanelistId fun
        | none => .done ⟨"USER_NOT_FOUND", 404⟩
        | some _ =>
          if 0 < r.Reward then
            .incUserOp r.PanelistId r.Reward r.Reward 1
              (.insertTxnOp (inbrainCreditRow r) (.done ⟨"OK", 200⟩))
          else .done ⟨"OK", 200⟩

/-- Run one task to completion, alone: sanity check that the resumption
decomposition computes the very same state transformer as the direct
embedding of the handler. -/
def runAlone : Nat → Proc → St → St
  | 0, _, st => st
  | n + 1, p, st =>
    match stepProc p st with
    | (p', st') =>
      match p with
      | .done _ => st
      | _ => runAlone n p' st'

theorem inbrainSuccessProc_runAlone (md5 : String → String) (secret : String)
    (r : InbrainReq) (st : St) :
    runAlone 4 (inbrainSuccessProc md5 secret r) st =
      (inbrain_success_callback md5 secret r st).1 := by
  by_cases hsig : pyLower r.Sig = pyLower (md5 (r.PanelistId ++ r.RewardId ++ secret))
  · cases hdup : findTxn st r.RewardId with
    | some e =>
      simp [inbrainSuccessProc, inbrain_success_callback, runAlone, stepProc, hsig, hdup]
    | none =>
      cases huser : findUser st r.PanelistId with
      | none =>
        simp [inbrainSuccessProc, inbrain_success_callback, runAlone, stepProc, hsig, hdup, huser]
      | some a =>
        by_cases hpos : 0 < r.Reward <;>
          simp [inbrainSuccessProc, inbrain_success_callback, runAlone, stepProc,
            hsig, hdup, huser, hpos, inbrainCreditRow]
  · simp [inbrainSuccessProc, inbrain_success_callback, runAlone, stepProc, hsig]

/-! ## Sequential redelivery -/

/-- Deliver the same Inbrain success payload `n` times, one request
finishing before the next starts. -/
def applyInbrainN (md5 : String → String) (secret : String) (r : InbrainReq) :
    Nat → St → St
  | 0, st => st
  | n + 1, st => applyInbrainN md5 secret r n (inbrain_success_callback md5 secret r st).1

/-- Deliver the same CPX payload `n` times, one request finishing before
the next starts. -/
def applyCpxN (md5 : String → String) (cfg : String) (r : CpxReq) :
    Nat → St → St
  | 0, st => st
  | n + 1, st => applyCpxN md5 cfg r n (cpx_research_callback md5 cfg r st).1

/-! ## Concrete fixtures used by witnesses and counterexamples -/

/-- A stand-in digest function for concrete scenarios (the identity — the
handlers only compare digests for equality, so any function serves). -/
def md5c : String → String := fun s => s

/-- A registered account holding 500 points. -/
def acct1 : Account := ⟨"u1", 500, 500, 3⟩

/-- A store with the one account `u1` and an empty transaction log. -/
def st1 : St := ⟨[acct1], []⟩

/-- A store with a zero-balance account `u1` and an empty transaction
log (the state right after registration). -/
def st0 : St := ⟨[⟨"u1", 0, 0, 0⟩], []⟩

/-- A general `$inc` projection: how `balanceOf` moves for an arbitrary
observer `uid'`. -/
theorem balanceOf_incUser (st : St) (uid uid' : String) (db_ dt ds : Int) :
    balanceOf (incUser st uid db_ dt ds) uid' =
      balanceOf st uid' +
        (if uid' = uid ∧ (findUser st uid).isSome then db_ else 0) := by
  by_cases h : uid' = uid
  · subst h
    cases hu : findUser st uid' with
    | none => simp [balanceOf, findUser_incUser, hu]
    | some a => simp [balanceOf, findUser_incUser, hu, bumpAccount]
  · simp [balanceOf, findUser_incUser, h]

/-- A general `$inc` projection for `totalEarnedOf`. -/
theorem totalEarnedOf_incUser (st : St) (uid uid' : String) (db_ dt ds : Int) :
    totalEarnedOf (incUser st uid db_ dt ds) uid' =
      totalEarnedOf st uid' +
        (if uid' = uid ∧ (findUser st uid).isSome then dt else 0) := by
  by_cases h : uid' = uid
  · subst h
    cases hu : findUser st uid' with
    | none => simp [totalEarnedOf, findUser_incUser, hu]
    | some a => simp [totalEarnedOf, findUser_incUser, hu, bumpAccount]
  · simp [totalEarnedOf, findUser_incUser, h]

/-- A general `$inc` projection for `surveysOf`. -/
theorem surveysOf_incUser (st : St) (uid uid' : String) (db_ dt ds : Int) :
    surveysOf (incUser st uid db_ dt ds) uid' =
      surveysOf st uid' +
        (if uid' = uid ∧ (findUser st uid).isSome then ds else 0) := by
  by_cases h : uid' = uid
  · subst h
    cases hu : findUser st uid' with
    | none => simp [surveysOf, findUser_incUser, hu]
    | some a => simp [surveysOf, findUser_incUser, hu, bumpAccount]
  · simp [surveysOf, findUser_incUser, h]

/-! ## C10: CPX accepts unsigned payloads -/

/-- C10: a CPX postback with an empty (or absent) `secure_hash` query
parameter, or arriving while the server's CPX secure hash is
unconfigured, skips signature verification entirely — the handler equals
its post-gate body — and, for an existing user and a fresh
`trans_id`, a completion is processed with its full balance effect and
the accepted acknowledgment `"1"`. -/
theorem cpx_empty_hash_skips_verification
    (md5 : String → String) (cfg : String) (r : CpxReq) (st : St) (a : Account)
    (h : r.secure_hash = "" ∨ cfg = "") :
    cpx_research_callback md5 cfg r st = cpx_process r st ∧
    (findUser st r.user_id = some a → findTxn st r.trans_id = none → r.status = 1 →
      balanceOf (cpx_research_callback md5 cfg r st).1 r.user_id
          = balanceOf st r.user_id + r.amount_local ∧
        (cpx_research_callback md5 cfg r st).2 = ⟨"1", 200⟩) := by
  have hacc : CpxAccepted md5 cfg r := by
    rcases h with h | h
    · exact Or.inr (Or.inl h)
    · exact Or.inl h
  have h1 := cpx_gate_skip md5 cfg r st hacc
  refine ⟨h1, fun huser hdup hstat => ?_⟩
  rw [h1, cpx_process_credit r st a huser hdup hstat]
  refine ⟨?_, rfl⟩
  rw [balanceOf_insertTxn, balanceOf_incUser_self st r.user_id _ _ _ (by simp [huser])]

/-- The CPX completion used in concrete unsigned-delivery scenarios
(no `secure_hash` supplied). -/
def cpxUnsigned : CpxReq :=
  { status := 1, trans_id := "t1", user_id := "u1", amount_local := 50 }

/-- C10 witness: with the server secret configured as `"k"` but no
`secure_hash` supplied, the concrete completion is processed in full. -/
theorem cpx_empty_hash_skips_verification_witness :
    cpx_research_callback md5c "k" cpxUnsigned st1 = cpx_process cpxUnsigned st1 ∧
    balanceOf (cpx_research_callback md5c "k" cpxUnsigned st1).1 "u1" = 550 ∧
    (cpx_research_callback md5c "k" cpxUnsigned st1).2 = ⟨"1", 200⟩ := by
  have h := cpx_empty_hash_skips_verification md5c "k" cpxUnsigned st1 acct1 (Or.inl rfl)
  have h2 := h.2 (by decide) (by decide) rfl
  exact ⟨h.1, h2.1.trans (by decide), h2.2⟩

/-! ## C2: the authentication gate -/

/-- C2 counterexample: on the CPX route with the server secret configured
as `"k"`, a payload whose supplied signature is empty — and therefore does
not equal the recomputed digest — is NOT rejected: the store is mutated
and the accepted acknowledgment `"1"` is returned, refuting the claim
that every mismatching payload produces zero store mutations and the
failure response. -/
theorem cpx_mismatched_empty_signature_processed :
    pyLower cpxUnsigned.secure_hash ≠ pyLower (cpxExpectedHash md5c "k" cpxUnsigned) ∧
    (cpx_research_callback md5c "k" cpxUnsigned st1).1 ≠ st1 ∧
    (cpx_research_callback md5c "k" cpxUnsigned st1).2 = ⟨"1", 200⟩ := by decide

/-- C2 (amended): every inbound postback whose supplied signature is
actually checked — always on the Inbrain and Admantium routes, and on the
CPX route whenever both the configured secret and the supplied
`secure_hash` are non-empty — and whose signature does not equal the
recomputed keyed digest performs zero store mutations and returns that
partner's failure response.  (A CPX payload with an empty supplied hash
bypasses the check; see the counterexample.) -/
theorem signature_mismatch_rejected_when_checked :
    (∀ (md5 : String → String) (secret : String) (r : InbrainReq) (st : St),
      pyLower r.Sig ≠ pyLower (inbrainExpectedSig md5 secret r) →
      inbrain_success_callback md5 secret r st = (st, ⟨"SIGNATURE_MISMATCH", 400⟩)) ∧
    (∀ (md5 : String → String) (secret : String) (r : InbrainReq) (st : St),
      pyLower r.Sig ≠ pyLower (inbrainExpectedSig md5 secret r) →
      inbrain_failure_callback md5 secret r st = (st, ⟨"SIGNATURE_MISMATCH", 400⟩)) ∧
    (∀ (md5 : String → String) (cfg : String) (r : CpxReq) (st : St),
      cfg ≠ "" → r.secure_hash ≠ "" →
      pyLower r.secure_hash ≠ pyLower (cpxExpectedHash md5 cfg r) →
      cpx_research_callback md5 cfg r st = (st, ⟨"0", 200⟩)) ∧
    (∀ (md5 : String → String) (secret : String) (r : AdmantiumReq) (st : St),
      pyLower r.signature ≠ pyLower (admExpectedSig md5 secret r) →
      admantium_callback md5 secret r st = (st, ⟨"ERROR: Signature doesn't match", 200⟩)) :=
  ⟨fun md5 secret r st h => ibs_sig_reject md5 secret r st h,
   fun md5 secret r st h => ibf_sig_reject md5 secret r st h,
   fun md5 cfg r st h1 h2 h => cpx_gate_reject md5 cfg r st h1 h2 h,
   fun md5 secret r st h => adm_sig_reject md5 secret r st h⟩

/-- An Inbrain payload carrying a wrong signature. -/
def ibrBadSig : InbrainReq :=
  { Sig := "zz", PanelistId := "u1", RewardId := "rx", Reward := 175, RewardType := "cash" }

/-- A CPX payload carrying a wrong (non-empty) signature. -/
def cpxBadSig : CpxReq :=
  { status := 1, trans_id := "t1", user_id := "u1", amount_local := 50, secure_hash := "zz" }

/-- An Admantium payload carrying a wrong signature. -/
def admBadSig : AdmantiumReq :=
  { user_id := "u1", reward := 80, status := "credited", transaction_id := "t2",
    signature := "zz" }

/-- C2 witness: each of the four handlers, fed a concrete mismatching
signature, leaves the store untouched and answers with its partner's
failure response. -/
theorem signature_mismatch_rejected_when_checked_witness :
    inbrain_success_callback md5c "sec" ibrBadSig st1 = (st1, ⟨"SIGNATURE_MISMATCH", 400⟩) ∧
    inbrain_failure_callback md5c "sec" ibrBadSig st1 = (st1, ⟨"SIGNATURE_MISMATCH", 400⟩) ∧
    cpx_research_callback md5c "k" cpxBadSig st1 = (st1, ⟨"0", 200⟩) ∧
    admantium_callback md5c "sec" admBadSig st1 = (st1, ⟨"ERROR: Signature doesn't match", 200⟩) :=
  ⟨signature_mismatch_rejected_when_checked.1 md5c "sec" ibrBadSig st1 (by decide),
   signature_mismatch_rejected_when_checked.2.1 md5c "sec" ibrBadSig st1 (by decide),
   signature_mismatch_rejected_when_checked.2.2.1 md5c "k" cpxBadSig st1 (by decide) (by decide)
     (by decide),
   signature_mismatch_rejected_when_checked.2.2.2 md5c "sec" admBadSig st1 (by decide)⟩

/-! ## C6: double reversal is an idempotent no-op -/

/-- C6: once the transaction of an external id is in its terminal
reversed state (`"reversed"` on the CPX route, `"rejected"` on the
Admantium route), delivering a further reversal for that external id — a
request that passes the route's signature gate and addresses an existing
user — mutates no account counters and no transaction record, and
returns the provider's success acknowledgment. -/
theorem double_reversal_is_noop :
    (∀ (md5 : String → String) (cfg : String) (r : CpxReq) (st : St) (a : Account) (e : Txn),
      CpxAccepted md5 cfg r → r.status = 2 →
      findUser st r.user_id = some a →
      findTxn st r.trans_id = some e → e.status = "reversed" →
      cpx_research_callback md5 cfg r st = (st, ⟨"1", 200⟩)) ∧
    (∀ (md5 : String → String) (secret : String) (r : AdmantiumReq) (st : St) (a : Account) (e : Txn),
      pyLower r.signature = pyLower (admExpectedSig md5 secret r) → r.status = "rejected" →
      findUser st r.user_id = some a →
      findTxn st r.transaction_id = some e → e.status = "rejected" →
      admantium_callback md5 secret r st = (st, ⟨"OK", 200⟩)) := by
  constructor
  · intro md5 cfg r st a e hacc hstat huser hdup hrev
    rw [cpx_gate_skip md5 cfg r st hacc]
    exact cpx_process_rev_dup r st a e huser hdup hrev hstat
  · intro md5 secret r st a e hsig hstat huser hdup hrej
    exact adm_rej_dup md5 secret r st a e hsig huser hdup hrej hstat

/-- A transaction already reversed on the CPX route. -/
def revRow1 : Txn :=
  ⟨"t1", "u1", "cpx_research", "reversal", -50, "reversed", "", ""⟩

/-- A store holding the already-reversed CPX transaction. -/
def stRev : St := ⟨[acct1], [revRow1]⟩

/-- A CPX reversal redelivery for the already-reversed `t1`. -/
def rvDup : CpxReq :=
  { status := 2, trans_id := "t1", user_id := "u1", amount_local := 50 }

/-- A transaction already rejected on the Admantium route. -/
def rejRow2 : Txn :=
  ⟨"t2", "u1", "admantium", "reversal", -60, "rejected", "", ""⟩

/-- A store holding the already-rejected Admantium transaction. -/
def stRej : St := ⟨[acct1], [rejRow2]⟩

/-- A signed Admantium rejection redelivery for the already-rejected
`t2` (signature matches `md5c`'s digest of `u1t260s`). -/
def admDup : AdmantiumReq :=
  { user_id := "u1", reward := 60, status := "rejected", transaction_id := "t2",
    signature := "u1t260s" }

/-- C6 witness: concrete redeliveries of both reversals are exact
no-ops with the success acknowledgment. -/
theorem double_reversal_is_noop_witness :
    cpx_research_callback md5c "" rvDup stRev = (stRev, ⟨"1", 200⟩) ∧
    admantium_callback md5c "s" admDup stRej = (stRej, ⟨"OK", 200⟩) :=
  ⟨double_reversal_is_noop.1 md5c "" rvDup stRev acct1 revRow1
     (Or.inl rfl) rfl (by decide) (by decide) rfl,
   double_reversal_is_noop.2 md5c "s" admDup stRej acct1 rejRow2
     (by decide) rfl (by decide) (by decide) rfl⟩

/-! ## C7: a reversal with no prior credit -/

/-- A CPX reversal addressing an external id with no prior transaction. -/
def rvFresh : CpxReq :=
  { status := 2, trans_id := "t9", user_id := "u1", amount_local := 50 }

/-- C7 counterexample: a CPX reversal whose `trans_id` matches no prior
transaction — in particular no prior completed credit — is not rejected:
it deducts the payload amount from the account (500 → 450) and inserts a
fresh reversal row, refuting the claim that such an event causes no
account-balance mutation. -/
theorem reversal_without_target_mutates :
    findTxn st1 "t9" = none ∧
    balanceOf st1 "u1" = 500 ∧
    balanceOf (cpx_research_callback md5c "" rvFresh st1).1 "u1" = 450 ∧
    txnCount (cpx_research_callback md5c "" rvFresh st1).1 "t9" = 1 := by decide

/-- C7 (amended): a reversal event whose external id matches no prior
transaction is applied as a fresh deduction rather than rejected: on
both reversal-capable routes the account's balance and `total_earned`
drop by the payload-derived amount, a new reversal row is inserted, and
the provider's success acknowledgment is returned. -/
theorem reversal_without_target_applied_as_fresh_deduction :
    (∀ (md5 : String → String) (cfg : String) (r : CpxReq) (st : St) (a : Account),
      CpxAccepted md5 cfg r → r.status = 2 →
      findUser st r.user_id = some a → findTxn st r.trans_id = none →
      cpx_research_callback md5 cfg r st =
        (insertTxn (incUser st r.user_id (-r.amount_local) (-r.amount_local) (-1))
          (cpxReversalRow r), ⟨"1", 200⟩) ∧
      balanceOf (cpx_research_callback md5 cfg r st).1 r.user_id
        = balanceOf st r.user_id - r.amount_local) ∧
    (∀ (md5 : String → String) (secret : String) (r : AdmantiumReq) (st : St) (a : Account),
      pyLower r.signature = pyLower (admExpectedSig md5 secret r) → r.status = "rejected" →
      findUser st r.user_id = some a → findTxn st r.transaction_id = none →
      admantium_callback md5 secret r st =
        (insertTxn (incUser st r.user_id (-|r.reward|) (-|r.reward|) (-1))
          (admReversalRow r), ⟨"OK", 200⟩) ∧
      balanceOf (admantium_callback md5 secret r st).1 r.user_id
        = balanceOf st r.user_id - |r.reward|) := by
  constructor
  · intro md5 cfg r st a hacc hstat huser hdup
    have hshape : cpx_research_callback md5 cfg r st =
        (insertTxn (incUser st r.user_id (-r.amount_local) (-r.amount_local) (-1))
          (cpxReversalRow r), ⟨"1", 200⟩) := by
      rw [cpx_gate_skip md5 cfg r st hacc]
      exact cpx_process_rev_fresh r st a huser hdup hstat
    refine ⟨hshape, ?_⟩
    rw [hshape]
    show balanceOf (insertTxn _ _) _ = _
    rw [balanceOf_insertTxn,
      balanceOf_incUser_self st r.user_id _ _ _ (by simp [huser])]
    ring
  · intro md5 secret r st a hsig hstat huser hdup
    have hshape := adm_rej_fresh md5 secret r st a hsig huser hdup hstat
    refine ⟨hshape, ?_⟩
    rw [hshape]
    show balanceOf (insertTxn _ _) _ = _
    rw [balanceOf_insertTxn,
      balanceOf_incUser_self st r.user_id _ _ _ (by simp [huser])]
    ring

/-- A signed Admantium rejection addressing an external id with no prior
transaction (signature matches `md5c`'s digest of `u1t9-60s`). -/
def admFresh : AdmantiumReq :=
  { user_id := "u1", reward := -60, status := "rejected", transaction_id := "t9",
    signature := "u1t9-60s" }

/-- C7 witness: the concrete fresh reversals deduct 50 (CPX) and 60
(Admantium) from the 500-point account. -/
theorem reversal_without_target_applied_witness :
    balanceOf (cpx_research_callback md5c "" rvFresh st1).1 "u1" = 450 ∧
    balanceOf (admantium_callback md5c "s" admFresh st1).1 "u1" = 440 := by
  have h1 := (reversal_without_target_applied_as_fresh_deduction.1 md5c "" rvFresh st1 acct1
    (Or.inl rfl) rfl (by decide) (by decide)).2
  have h2 := (reversal_without_target_applied_as_fresh_deduction.2 md5c "s" admFresh st1 acct1
    (by decide) rfl (by decide) (by decide)).2
  exact ⟨h1.trans (by decide), h2.trans (by decide)⟩

/-! ## C8: unknown user -/

/-- A correctly signed Inbrain payload for an unregistered panelist
(signature matches `md5c`'s digest of `ghostrgsec`). -/
def ibrGhost : InbrainReq :=
  { Sig := "ghostrgsec", PanelistId := "ghost", RewardId := "rg", Reward := 5,
    RewardType := "cash" }

/-- C8 counterexample: the Inbrain failure route, given a correctly
signed event for an unknown user, still inserts a disqualification
Transaction row (a store mutation) and returns the success
acknowledgment `OK` rather than a failure — refuting the claim that every
authenticated event for an unknown user performs no store mutation and
returns the failure acknowledgment. -/
theorem inbrain_failure_unknown_user_mutates :
    findUser st1 "ghost" = none ∧
    (inbrain_failure_callback md5c "sec" ibrGhost st1).2 = ⟨"OK", 200⟩ ∧
    (inbrain_failure_callback md5c "sec" ibrGhost st1).1 ≠ st1 ∧
    txnCount (inbrain_failure_callback md5c "sec" ibrGhost st1).1 "rg" = 1 := by decide

/-- C8 (amended): on the CPX, Admantium and Inbrain-success routes an
authenticated event whose `user_id` matches no account is rejected with
the partner's failure acknowledgment and no store mutation; the
Inbrain-failure route deviates: it skips only the balance credit but
still inserts the disqualification Transaction row and returns `OK`. -/
theorem unknown_user_handling :
    (∀ (md5 : String → String) (secret : String) (r : InbrainReq) (st : St),
      pyLower r.Sig = pyLower (inbrainExpectedSig md5 secret r) →
      findTxn st r.RewardId = none → findUser st r.PanelistId = none →
      inbrain_success_callback md5 secret r st = (st, ⟨"USER_NOT_FOUND", 404⟩)) ∧
    (∀ (md5 : String → String) (cfg : String) (r : CpxReq) (st : St),
      CpxAccepted md5 cfg r → findUser st r.user_id = none →
      cpx_research_callback md5 cfg r st = (st, ⟨"0", 200⟩)) ∧
    (∀ (md5 : String → String) (secret : String) (r : AdmantiumReq) (st : St),
      pyLower r.signature = pyLower (admExpectedSig md5 secret r) →
      findUser st r.user_id = none →
      admantium_callback md5 secret r st = (st, ⟨"ERROR: User not found", 200⟩)) ∧
    (∀ (md5 : String → String) (secret : String) (r : InbrainReq) (st : St),
      pyLower r.Sig = pyLower (inbrainExpectedSig md5 secret r) →
      findTxn st r.RewardId = none → findUser st r.PanelistId = none →
      inbrain_failure_callback md5 secret r st =
        (insertTxn st (inbrainDisqRow r), ⟨"OK", 200⟩)) := by
  refine ⟨fun md5 secret r st hsig hdup huser => ibs_user_none md5 secret r st hsig hdup huser,
    fun md5 cfg r st hacc huser => ?_,
    fun md5 secret r st hsig huser => adm_user_none md5 secret r st hsig huser,
    fun md5 secret r st hsig hdup huser => ibf_user_none md5 secret r st hsig hdup huser⟩
  rw [cpx_gate_skip md5 cfg r st hacc]
  exact cpx_process_user_none r st huser

/-- A correctly signed Inbrain success payload for the unregistered
panelist `ghost`. -/
def ibrGhostSucc : InbrainReq :=
  { Sig := "ghostrssec", PanelistId := "ghost", RewardId := "rs", Reward := 5,
    RewardType := "cash" }

/-- A CPX completion for an unregistered user. -/
def cpxGhost : CpxReq :=
  { status := 1, trans_id := "tg", user_id := "ghost", amount_local := 50 }

/-- A signed Admantium credit for an unregistered user (signature
matches `md5c`'s digest of `ghosttg80s`). -/
def admGhost : AdmantiumReq :=
  { user_id := "ghost", reward := 80, status := "credited", transaction_id := "tg",
    signature := "ghosttg80s" }

/-- C8 witness: the four concrete unknown-user deliveries behave exactly
as the amended claim states. -/
theorem unknown_user_handling_witness :
    inbrain_success_callback md5c "sec" ibrGhostSucc st1 = (st1, ⟨"USER_NOT_FOUND", 404⟩) ∧
    cpx_research_callback md5c "" cpxGhost st1 = (st1, ⟨"0", 200⟩) ∧
    admantium_callback md5c "s" admGhost st1 = (st1, ⟨"ERROR: User not found", 200⟩) ∧
    inbrain_failure_callback md5c "sec" ibrGhost st1 =
      (insertTxn st1 (inbrainDisqRow ibrGhost), ⟨"OK", 200⟩) :=
  ⟨unknown_user_handling.1 md5c "sec" ibrGhostSucc st1 (by decide) (by decide) (by decide),
   unknown_user_handling.2.1 md5c "" cpxGhost st1 (Or.inl rfl) (by decide),
   unknown_user_handling.2.2.1 md5c "s" admGhost st1 (by decide) (by decide),
   unknown_user_handling.2.2.2 md5c "sec" ibrGhost st1 (by decide) (by decide) (by decide)⟩

/-! ## C9: sign of applied credit amounts -/

/-- A CPX completion carrying a negative amount. -/
def cpxNeg : CpxReq :=
  { status := 1, trans_id := "t3", user_id := "u1", amount_local := -50 }

/-- C9 counterexample: a CPX completion (`status=1`, a credit outcome)
whose provider-supplied `amount_local` is −50 is applied as-is: the
account's balance drops from 500 to 450 and the recorded row carries
points −50, refuting the claim that every credit-outcome event is
applied with a nonnegative points magnitude. -/
theorem cpx_credit_applies_negative_amount :
    balanceOf st1 "u1" = 500 ∧
    balanceOf (cpx_research_callback md5c "" cpxNeg st1).1 "u1" = 450 ∧
    (findTxn (cpx_research_callback md5c "" cpxNeg st1).1 "t3").map Txn.points = some (-50) ∧
    (cpx_research_callback md5c "" cpxNeg st1).2 = ⟨"1", 200⟩ := by decide

/-- C9 (amended): only the Inbrain success route guards the sign of the
credited amount — processing an Inbrain success event never decreases any
account's `balance`, `total_earned` or `surveys_completed` — whereas the
CPX and Admantium credit paths apply the provider-supplied signed amount
verbatim, so a negative amount decreases the balance. -/
theorem credit_sign_guard :
    (∀ (md5 : String → String) (secret : String) (r : InbrainReq) (st : St) (uid : String),
      balanceOf (inbrain_success_callback md5 secret r st).1 uid ≥ balanceOf st uid ∧
      totalEarnedOf (inbrain_success_callback md5 secret r st).1 uid ≥ totalEarnedOf st uid ∧
      surveysOf (inbrain_success_callback md5 secret r st).1 uid ≥ surveysOf st uid) ∧
    (∀ (md5 : String → String) (cfg : String) (r : CpxReq) (st : St) (a : Account),
      CpxAccepted md5 cfg r → r.status = 1 →
      findUser st r.user_id = some a → findTxn st r.trans_id = none →
      balanceOf (cpx_research_callback md5 cfg r st).1 r.user_id
        = balanceOf st r.user_id + r.amount_local) ∧
    (∀ (md5 : String → String) (secret : String) (r : AdmantiumReq) (st : St) (a : Account),
      pyLower r.signature = pyLower (admExpectedSig md5 secret r) → r.status = "credited" →
      findUser st r.user_id = some a → findTxn st r.transaction_id = none →
      balanceOf (admantium_callback md5 secret r st).1 r.user_id
        = balanceOf st r.user_id + r.reward) := by
  refine ⟨fun md5 secret r st uid => ?_, fun md5 cfg r st a hacc hstat huser hdup => ?_,
    fun md5 secret r st a hsig hstat huser hdup => ?_⟩
  · by_cases hsig : pyLower r.Sig = pyLower (inbrainExpectedSig md5 secret r)
    · cases hdup : findTxn st r.RewardId with
      | some e => simp [ibs_dup md5 secret r st e hsig hdup]
      | none =>
        cases huser : findUser st r.PanelistId with
        | none => simp [ibs_user_none md5 secret r st hsig hdup huser]
        | some a =>
          by_cases hpos : 0 < r.Reward
          · rw [ibs_credit md5 secret r st a hsig hdup huser hpos]
            show balanceOf (insertTxn _ _) _ ≥ _ ∧
              totalEarnedOf (insertTxn _ _) _ ≥ _ ∧ surveysOf (insertTxn _ _) _ ≥ _
            rw [balanceOf_insertTxn, totalEarnedOf_insertTxn, surveysOf_insertTxn,
              balanceOf_incUser, totalEarnedOf_incUser, surveysOf_incUser]
            refine ⟨?_, ?_, ?_⟩ <;> split <;> omega
          · simp [ibs_nonpos md5 secret r st a hsig hdup huser hpos]
    · simp [ibs_sig_reject md5 secret r st hsig]
  · rw [cpx_gate_skip md5 cfg r st hacc, cpx_process_credit r st a huser hdup hstat]
    show balanceOf (insertTxn _ _) _ = _
    rw [balanceOf_insertTxn, balanceOf_incUser_self st r.user_id _ _ _ (by simp [huser])]
  · rw [adm_credit_fresh md5 secret r st a hsig huser hdup hstat]
    show balanceOf (insertTxn _ _) _ = _
    rw [balanceOf_insertTxn, balanceOf_incUser_self st r.user_id _ _ _ (by simp [huser])]

/-- A signed Admantium credit carrying a negative reward (signature
matches `md5c`'s digest of `u1t4-70s`). -/
def admNeg : AdmantiumReq :=
  { user_id := "u1", reward := -70, status := "credited", transaction_id := "t4",
    signature := "u1t4-70s" }

/-- C9 witness: the Inbrain monotonicity holds at a concrete negative
reward, while a concrete negative CPX amount and a concrete negative
Admantium reward are applied verbatim (500 → 450 and 500 → 430). -/
theorem credit_sign_guard_witness :
    (balanceOf (inbrain_success_callback md5c "sec"
        { Sig := "u1rnsec", PanelistId := "u1", RewardId := "rn", Reward := -5,
          RewardType := "cash" } st1).1 "u1" ≥ balanceOf st1 "u1") ∧
    balanceOf (cpx_research_callback md5c "" cpxNeg st1).1 "u1" = 450 ∧
    balanceOf (admantium_callback md5c "s" admNeg st1).1 "u1" = 430 := by
  have h1 := (credit_sign_guard.1 md5c "sec"
    { Sig := "u1rnsec", PanelistId := "u1", RewardId := "rn", Reward := -5,
      RewardType := "cash" } st1 "u1").1
  have h2 := credit_sign_guard.2.1 md5c "" cpxNeg st1 acct1 (Or.inl rfl) rfl
    (by decide) (by decide)
  have h3 := credit_sign_guard.2.2 md5c "s" admNeg st1 acct1 (by decide) rfl
    (by decide) (by decide)
  exact ⟨h1, h2.trans (by decide), h3.trans (by decide)⟩

/-! ## C3: which amount a reversal deducts -/

/-- A store in which `u1` was credited 100 points for the completed CPX
transaction `t1`. -/
def stWithCredit : St :=
  ⟨[⟨"u1", 600, 600, 4⟩], [⟨"t1", "u1", "cpx_research", "credit", 100, "completed", "", ""⟩]⟩

/-- A CPX reversal for `t1` claiming an amount (50) different from the
originally credited 100. -/
def rv50 : CpxReq :=
  { status := 2, trans_id := "t1", user_id := "u1", amount_local := 50 }

/-- C3 counterexample: reversing the completed 100-point credit `t1`
with a reversal payload claiming 50 deducts 50 — the payload amount —
leaving the balance at 550 instead of the 500 the claim requires
(deduction of exactly the originally recorded P = 100).  The row does
flip to `reversed`. -/
theorem reversal_uses_payload_not_original_amount :
    (findTxn stWithCredit "t1").map Txn.points = some 100 ∧
    balanceOf stWithCredit "u1" = 600 ∧
    balanceOf (cpx_research_callback md5c "" rv50 stWithCredit).1 "u1" = 550 ∧
    (findTxn (cpx_research_callback md5c "" rv50 stWithCredit).1 "t1").map Txn.status
      = some "reversed" := by decide

/-- C3 (amended): a reversal targeting a previously recorded transaction
that is not yet in its terminal reversed state decreases the account's
`balance` and `total_earned` by the amount carried in the **reversal
payload** (`int(amount_local)` on the CPX route, `abs(reward)` on the
Admantium route) — not by the amount recorded on the original credit —
and flips that transaction's status to the route's terminal state
(`"reversed"` for CPX, `"rejected"` for Admantium). -/
theorem reversal_deducts_payload_amount
    (md5 : String → String) (cfg secret : String) :
    (∀ (r : CpxReq) (st : St) (a : Account) (e : Txn),
      CpxAccepted md5 cfg r → r.status = 2 →
      findUser st r.user_id = some a →
      findTxn st r.trans_id = some e → e.status ≠ "reversed" →
      balanceOf (cpx_research_callback md5 cfg r st).1 r.user_id
          = balanceOf st r.user_id - r.amount_local ∧
        totalEarnedOf (cpx_research_callback md5 cfg r st).1 r.user_id
          = totalEarnedOf st r.user_id - r.amount_local ∧
        findTxn (cpx_research_callback md5 cfg r st).1 r.trans_id
          = some (withStatus "reversed" e)) ∧
    (∀ (r : AdmantiumReq) (st : St) (a : Account) (e : Txn),
      pyLower r.signature = pyLower (admExpectedSig md5 secret r) → r.status = "rejected" →
      findUser st r.user_id = some a →
      findTxn st r.transaction_id = some e → e.status ≠ "rejected" →
      balanceOf (admantium_callback md5 secret r st).1 r.user_id
          = balanceOf st r.user_id - |r.reward| ∧
        totalEarnedOf (admantium_callback md5 secret r st).1 r.user_id
          = totalEarnedOf st r.user_id - |r.reward| ∧
        findTxn (admantium_callback md5 secret r st).1 r.transaction_id
          = some (withStatus "rejected" e)) := by
  constructor
  · intro r st a e hacc hstat huser hdup hrev
    have hshape : cpx_research_callback md5 cfg r st =
        (setTxnStatus (incUser st r.user_id (-r.amount_local) (-r.amount_local) (-1))
          r.trans_id "reversed", ⟨"1", 200⟩) := by
      rw [cpx_gate_skip md5 cfg r st hacc]
      exact cpx_process_rev_flip r st a e huser hdup hrev hstat
    rw [hshape]
    refine ⟨?_, ?_, ?_⟩
    · show balanceOf (setTxnStatus _ _ _) _ = _
      rw [balanceOf_setTxnStatus,
        balanceOf_incUser_self st r.user_id _ _ _ (by simp [huser])]
      ring
    · show totalEarnedOf (setTxnStatus _ _ _) _ = _
      rw [totalEarnedOf_setTxnStatus,
        totalEarnedOf_incUser_self st r.user_id _ _ _ (by simp [huser])]
      ring
    · show findTxn (setTxnStatus _ _ _) _ = _
      rw [findTxn_setTxnStatus_self, findTxn_incUser, hdup]
      rfl
  · intro r st a e hsig hstat huser hdup hrej
    have hshape := adm_rej_flip md5 secret r st a e hsig huser hdup hrej hstat
    rw [hshape]
    refine ⟨?_, ?_, ?_⟩
    · show balanceOf (setTxnStatus _ _ _) _ = _
      rw [balanceOf_setTxnStatus,
        balanceOf_incUser_self st r.user_id _ _ _ (by simp [huser])]
      ring
    · show totalEarnedOf (setTxnStatus _ _ _) _ = _
      rw [totalEarnedOf_setTxnStatus,
        totalEarnedOf_incUser_self st r.user_id _ _ _ (by simp [huser])]
      ring
    · show findTxn (setTxnStatus _ _ _) _ = _
      rw [findTxn_setTxnStatus_self, findTxn_incUser, hdup]
      rfl

/-- The completed credit row reversed in the concrete C3 scenario. -/
def creditRow100 : Txn :=
  ⟨"t1", "u1", "cpx_research", "credit", 100, "completed", "", ""⟩

/-- C3 witness: the concrete reversal of the 100-point credit with a
50-point payload leaves balance 550 and flips the row. -/
theorem reversal_deducts_payload_amount_witness :
    balanceOf (cpx_research_callback md5c "" rv50 stWithCredit).1 "u1" = 550 ∧
    findTxn (cpx_research_callback md5c "" rv50 stWithCredit).1 "t1"
      = some (withStatus "reversed" creditRow100) := by
  have h := (reversal_deducts_payload_amount md5c "" "s").1 rv50 stWithCredit
    ⟨"u1", 600, 600, 4⟩ creditRow100 (Or.inl rfl) rfl (by decide) (by decide) (by decide)
  exact ⟨h.1.trans (by decide), h.2.2⟩

/-! ## C4: order effects of a credit/reversal pair -/

/-- The CPX completion of the matched pair (175 points, id `tp`). -/
def rcPair : CpxReq :=
  { status := 1, trans_id := "tp", user_id := "u1", amount_local := 175 }

/-- The CPX reversal of the matched pair. -/
def rvPair : CpxReq :=
  { status := 2, trans_id := "tp", user_id := "u1", amount_local := 175 }

/-- C4 counterexample: delivering the reversal before its credit deducts
175 immediately (500 → 325), and the later credit is then swallowed as a
duplicate, so the matched pair nets −175 — a net-negative effect beyond
the pair cancelling out, refuting the order-independence claim. -/
theorem reversal_first_swallows_credit :
    balanceOf st1 "u1" = 500 ∧
    balanceOf (cpx_research_callback md5c "" rvPair st1).1 "u1" = 325 ∧
    cpx_research_callback md5c "" rcPair (cpx_research_callback md5c "" rvPair st1).1
      = ((cpx_research_callback md5c "" rvPair st1).1, ⟨"1", 200⟩) ∧
    balanceOf (cpx_research_callback md5c "" rcPair
        (cpx_research_callback md5c "" rvPair st1).1).1 "u1" = 325 := by decide

/-- C4 (amended): for a CPX credit/reversal pair on the same external id
and amount, the reversal's deduction is applied at most once in either
order, and credit-then-reversal nets zero; but reversal-before-credit
does **not** cancel out — the deduction is applied and the later credit
is suppressed as a duplicate, netting minus the pair's amount. -/
theorem credit_reversal_order_effects
    (md5 : String → String) (cfg : String) (rc rv : CpxReq) (st : St) (a : Account)
    (hacc_c : CpxAccepted md5 cfg rc) (hacc_v : CpxAccepted md5 cfg rv)
    (hc : rc.status = 1) (hv : rv.status = 2)
    (hid : rv.trans_id = rc.trans_id) (huid : rv.user_id = rc.user_id)
    (hamt : rv.amount_local = rc.amount_local)
    (huser : findUser st rc.user_id = some a)
    (hdup : findTxn st rc.trans_id = none) :
    balanceOf (cpx_research_callback md5 cfg rv
        (cpx_research_callback md5 cfg rc st).1).1 rc.user_id = balanceOf st rc.user_id ∧
    cpx_research_callback md5 cfg rv
        (cpx_research_callback md5 cfg rv (cpx_research_callback md5 cfg rc st).1).1
      = ((cpx_research_callback md5 cfg rv (cpx_research_callback md5 cfg rc st).1).1,
         ⟨"1", 200⟩) ∧
    balanceOf (cpx_research_callback md5 cfg rv st).1 rc.user_id
      = balanceOf st rc.user_id - rc.amount_local ∧
    cpx_research_callback md5 cfg rc (cpx_research_callback md5 cfg rv st).1
      = ((cpx_research_callback md5 cfg rv st).1, ⟨"1", 200⟩) := by
  have hcredit : cpx_research_callback md5 cfg rc st =
      (insertTxn (incUser st rc.user_id rc.amount_local rc.amount_local 1) (cpxCreditRow rc),
       ⟨"1", 200⟩) := by
    rw [cpx_gate_skip md5 cfg rc st hacc_c]
    exact cpx_process_credit rc st a huser hdup hc
  have huserA2 : findUser
      (insertTxn (incUser st rc.user_id rc.amount_local rc.amount_local 1) (cpxCreditRow rc))
      rc.user_id = some (bumpAccount rc.amount_local rc.amount_local 1 a) := by
    rw [findUser_insertTxn, findUser_incUser]
    simp [huser]
  have huserA : findUser
      (insertTxn (incUser st rc.user_id rc.amount_local rc.amount_local 1) (cpxCreditRow rc))
      rv.user_id = some (bumpAccount rc.amount_local rc.amount_local 1 a) := by
    rw [huid]
    exact huserA2
  have hdupA : findTxn
      (insertTxn (incUser st rc.user_id rc.amount_local rc.amount_local 1) (cpxCreditRow rc))
      rv.trans_id = some (cpxCreditRow rc) := by
    rw [hid, findTxn_insertTxn, findTxn_incUser, hdup]
    simp [cpxCreditRow]
  have hrevAB : cpx_research_callback md5 cfg rv (cpx_research_callback md5 cfg rc st).1 =
      (setTxnStatus
        (incUser
          (insertTxn (incUser st rc.user_id rc.amount_local rc.amount_local 1) (cpxCreditRow rc))
          rv.user_id (-rv.amount_local) (-rv.amount_local) (-1))
        rv.trans_id "reversed", ⟨"1", 200⟩) := by
    rw [hcredit]
    show cpx_research_callback md5 cfg rv (insertTxn _ _) = _
    rw [cpx_gate_skip md5 cfg rv _ hacc_v]
    exact cpx_process_rev_flip rv _ _ (cpxCreditRow rc) huserA hdupA (by simp [cpxCreditRow]) hv
  have hbalA : balanceOf
      (insertTxn (incUser st rc.user_id rc.amount_local rc.amount_local 1) (cpxCreditRow rc))
      rc.user_id = balanceOf st rc.user_id + rc.amount_local := by
    rw [balanceOf_insertTxn, balanceOf_incUser_self st rc.user_id _ _ _ (by simp [huser])]
  refine ⟨?_, ?_, ?_, ?_⟩
  · rw [hrevAB]
    show balanceOf (setTxnStatus _ _ _) _ = _
    rw [balanceOf_setTxnStatus, huid, hamt,
      balanceOf_incUser_self _ rc.user_id _ _ _ (by simp [huserA2]), hbalA]
    ring
  · rw [hrevAB]
    show cpx_research_callback md5 cfg rv (setTxnStatus _ _ _) = _
    rw [cpx_gate_skip md5 cfg rv _ hacc_v]
    refine cpx_process_rev_dup rv _
      (bumpAccount (-rv.amount_local) (-rv.amount_local) (-1)
        (bumpAccount rc.amount_local rc.amount_local 1 a))
      (withStatus "reversed" (cpxCreditRow rc)) ?_ ?_ rfl hv
    · rw [findUser_setTxnStatus, findUser_incUser]
      simp [huserA]
    · rw [findTxn_setTxnStatus_self, findTxn_incUser, hdupA]
      rfl
  · have hrevB : cpx_research_callback md5 cfg rv st =
        (insertTxn (incUser st rv.user_id (-rv.amount_local) (-rv.amount_local) (-1))
          (cpxReversalRow rv), ⟨"1", 200⟩) := by
      rw [cpx_gate_skip md5 cfg rv st hacc_v]
      exact cpx_process_rev_fresh rv st a (by rw [huid]; exact huser)
        (by rw [hid]; exact hdup) hv
    rw [hrevB]
    show balanceOf (insertTxn _ _) _ = _
    rw [balanceOf_insertTxn, huid, hamt,
      balanceOf_incUser_self st rc.user_id _ _ _ (by simp [huser])]
    ring
  · have hrevB : cpx_research_callback md5 cfg rv st =
        (insertTxn (incUser st rv.user_id (-rv.amount_local) (-rv.amount_local) (-1))
          (cpxReversalRow rv), ⟨"1", 200⟩) := by
      rw [cpx_gate_skip md5 cfg rv st hacc_v]
      exact cpx_process_rev_fresh rv st a (by rw [huid]; exact huser)
        (by rw [hid]; exact hdup) hv
    rw [hrevB]
    show cpx_research_callback md5 cfg rc (insertTxn _ _) = _
    rw [cpx_gate_skip md5 cfg rc _ hacc_c]
    refine cpx_process_credit_dup rc _
      (bumpAccount (-rv.amount_local) (-rv.amount_local) (-1) a) (cpxReversalRow rv) ?_ ?_ hc
    · rw [findUser_insertTxn, findUser_incUser]
      simp [huid, huser]
    · rw [findTxn_insertTxn, findTxn_incUser, hdup]
      simp [cpxReversalRow, hid]

/-- C4 witness: the concrete pair at 175 points on account `u1`:
credit-then-reversal returns the balance to 500, a second reversal is a
no-op, while reversal-first nets 325 and swallows the credit. -/
theorem credit_reversal_order_effects_witness :
    balanceOf (cpx_research_callback md5c "" rvPair
        (cpx_research_callback md5c "" rcPair st1).1).1 "u1" = 500 ∧
    cpx_research_callback md5c "" rvPair
        (cpx_research_callback md5c "" rvPair (cpx_research_callback md5c "" rcPair st1).1).1
      = ((cpx_research_callback md5c "" rvPair (cpx_research_callback md5c "" rcPair st1).1).1,
         ⟨"1", 200⟩) ∧
    balanceOf (cpx_research_callback md5c "" rvPair st1).1 "u1" = 325 := by
  have h := credit_reversal_order_effects md5c "" rcPair rvPair st1 acct1
    (Or.inl rfl) (Or.inl rfl) rfl rfl rfl rfl rfl (by decide) (by decide)
  exact ⟨h.1.trans (by decide), h.2.1, h.2.2.1.trans (by decide)⟩

/-! ## C1: idempotency of credit redelivery -/

theorem txnCount_incUser (st : St) (uid : String) (db_ dt ds : Int) (tid : String) :
    txnCount (incUser st uid db_ dt ds) tid = txnCount st tid := rfl

/-- Once a transaction with the event's external id exists, redelivering
the Inbrain success payload any number of times leaves the store fixed. -/
theorem applyInbrainN_stationary (md5 : String → String) (secret : String)
    (r : InbrainReq) (st : St) (e : Txn)
    (hsig : pyLower r.Sig = pyLower (inbrainExpectedSig md5 secret r))
    (hdup : findTxn st r.RewardId = some e) :
    ∀ n, applyInbrainN md5 secret r n st = st := by
  intro n
  induction n with
  | zero => rfl
  | succ n ih =>
    rw [applyInbrainN, ibs_dup md5 secret r st e hsig hdup]
    exact ih

/-- Once a transaction with the event's external id exists (and the user
exists), redelivering the CPX completion any number of times leaves the
store fixed. -/
theorem applyCpxN_stationary (md5 : String → String) (cfg : String)
    (r : CpxReq) (st : St) (a : Account) (e : Txn)
    (hacc : CpxAccepted md5 cfg r) (hstat : r.status = 1)
    (huser : findUser st r.user_id = some a)
    (hdup : findTxn st r.trans_id = some e) :
    ∀ n, applyCpxN md5 cfg r n st = st := by
  intro n
  induction n with
  | zero => rfl
  | succ n ih =>
    have hfix : cpx_research_callback md5 cfg r st = (st, ⟨"1", 200⟩) := by
      rw [cpx_gate_skip md5 cfg r st hacc]
      exact cpx_process_credit_dup r st a e huser hdup hstat
    rw [applyCpxN, hfix]
    exact ih

/-- C1 (amended): delivering the same valid credit event N ≥ 1 times
**sequentially** (each request completing before the next starts)
credits the account exactly once, inserts exactly one transaction row
with that external id, and every delivery after the first mutates
nothing and returns the provider's accepted acknowledgment.  (Under
interleaved concurrent deliveries the separate duplicate check races and
the credit is applied twice; see the counterexample.) -/
theorem sequential_redelivery_credits_once :
    (∀ (md5 : String → String) (secret : String) (r : InbrainReq) (st : St) (a : Account)
       (N : Nat), 1 ≤ N →
      pyLower r.Sig = pyLower (inbrainExpectedSig md5 secret r) →
      findTxn st r.RewardId = none → findUser st r.PanelistId = some a → 0 < r.Reward →
      applyInbrainN md5 secret r N st = (inbrain_success_callback md5 secret r st).1 ∧
      balanceOf (inbrain_success_callback md5 secret r st).1 r.PanelistId
        = balanceOf st r.PanelistId + r.Reward ∧
      txnCount (inbrain_success_callback md5 secret r st).1 r.RewardId
        = txnCount st r.RewardId + 1 ∧
      inbrain_success_callback md5 secret r (inbrain_success_callback md5 secret r st).1
        = ((inbrain_success_callback md5 secret r st).1, ⟨"OK", 200⟩)) ∧
    (∀ (md5 : String → String) (cfg : String) (r : CpxReq) (st : St) (a : Account)
       (N : Nat), 1 ≤ N →
      CpxAccepted md5 cfg r → r.status = 1 →
      findTxn st r.trans_id = none → findUser st r.user_id = some a →
      applyCpxN md5 cfg r N st = (cpx_research_callback md5 cfg r st).1 ∧
      balanceOf (cpx_research_callback md5 cfg r st).1 r.user_id
        = balanceOf st r.user_id + r.amount_local ∧
      txnCount (cpx_research_callback md5 cfg r st).1 r.trans_id
        = txnCount st r.trans_id + 1 ∧
      cpx_research_callback md5 cfg r (cpx_research_callback md5 cfg r st).1
        = ((cpx_research_callback md5 cfg r st).1, ⟨"1", 200⟩)) := by
  constructor
  · intro md5 secret r st a N hN hsig hdup huser hpos
    have hshape := ibs_credit md5 secret r st a hsig hdup huser hpos
    have h1 : (inbrain_success_callback md5 secret r st).1 =
        insertTxn (incUser st r.PanelistId r.Reward r.Reward 1) (inbrainCreditRow r) := by
      rw [hshape]
    have hdupE : findTxn
        (insertTxn (incUser st r.PanelistId r.Reward r.Reward 1) (inbrainCreditRow r))
        r.RewardId = some (inbrainCreditRow r) := by
      rw [findTxn_insertTxn, findTxn_incUser, hdup]
      simp [inbrainCreditRow]
    obtain ⟨n, rfl⟩ : ∃ n, N = n + 1 := ⟨N - 1, by omega⟩
    refine ⟨?_, ?_, ?_, ?_⟩
    · rw [applyInbrainN, h1]
      exact applyInbrainN_stationary md5 secret r _ (inbrainCreditRow r) hsig hdupE n
    · rw [h1, balanceOf_insertTxn,
        balanceOf_incUser_self st r.PanelistId _ _ _ (by simp [huser])]
    · rw [h1, txnCount_insertTxn, txnCount_incUser]
      simp [inbrainCreditRow]
    · rw [h1]
      exact ibs_dup md5 secret r _ (inbrainCreditRow r) hsig hdupE
  · intro md5 cfg r st a N hN hacc hstat hdup huser
    have h1 : (cpx_research_callback md5 cfg r st).1 =
        insertTxn (incUser st r.user_id r.amount_local r.amount_local 1) (cpxCreditRow r) := by
      rw [cpx_gate_skip md5 cfg r st hacc, cpx_process_credit r st a huser hdup hstat]
    have huserE : findUser
        (insertTxn (incUser st r.user_id r.amount_local r.amount_local 1) (cpxCreditRow r))
        r.user_id = some (bumpAccount r.amount_local r.amount_local 1 a) := by
      rw [findUser_insertTxn, findUser_incUser]
      simp [huser]
    have hdupE : findTxn
        (insertTxn (incUser st r.user_id r.amount_local r.amount_local 1) (cpxCreditRow r))
        r.trans_id = some (cpxCreditRow r) := by
      rw [findTxn_insertTxn, findTxn_incUser, hdup]
      simp [cpxCreditRow]
    obtain ⟨n, rfl⟩ : ∃ n, N = n + 1 := ⟨N - 1, by omega⟩
    refine ⟨?_, ?_, ?_, ?_⟩
    · rw [applyCpxN, h1]
      exact applyCpxN_stationary md5 cfg r _ _ (cpxCreditRow r) hacc hstat huserE hdupE n
    · rw [h1, balanceOf_insertTxn,
        balanceOf_incUser_self st r.user_id _ _ _ (by simp [huser])]
    · rw [h1, txnCount_insertTxn, txnCount_incUser]
      simp [cpxCreditRow]
    · rw [h1, cpx_gate_skip md5 cfg r _ hacc]
      exact cpx_process_credit_dup r _ _ (cpxCreditRow r) huserE hdupE hstat

/-- The valid Inbrain credit event used in the redelivery scenarios
(signature matches `md5c`'s digest of `u1rxsec`). -/
def ibrPair : InbrainReq :=
  { Sig := "u1rxsec", PanelistId := "u1", RewardId := "rx", Reward := 175,
    RewardType := "cash" }

/-- C1 witness: three sequential deliveries of the concrete 175-point
Inbrain credit (and of a concrete CPX completion) credit exactly once —
the balance rises by one payment and one row exists — and a redelivery
after the first is an exact no-op with the accepted acknowledgment. -/
theorem sequential_redelivery_credits_once_witness :
    applyInbrainN md5c "sec" ibrPair 3 st1 = (inbrain_success_callback md5c "sec" ibrPair st1).1 ∧
    balanceOf (inbrain_success_callback md5c "sec" ibrPair st1).1 "u1" = 675 ∧
    txnCount (inbrain_success_callback md5c "sec" ibrPair st1).1 "rx" = 1 ∧
    applyCpxN md5c "" rcPair 3 st1 = (cpx_research_callback md5c "" rcPair st1).1 ∧
    balanceOf (cpx_research_callback md5c "" rcPair st1).1 "u1" = 675 ∧
    cpx_research_callback md5c "" rcPair (cpx_research_callback md5c "" rcPair st1).1
      = ((cpx_research_callback md5c "" rcPair st1).1, ⟨"1", 200⟩) := by
  have h1 := sequential_redelivery_credits_once.1 md5c "sec" ibrPair st1 acct1 3
    (by omega) (by decide) (by decide) (by decide) (by decide)
  have h2 := sequential_redelivery_credits_once.2 md5c "" rcPair st1 acct1 3
    (by omega) (Or.inl rfl) rfl (by decide) (by decide)
  exact ⟨h1.1, h1.2.1.trans (by decide), h1.2.2.1.trans (by decide),
    h2.1, h2.2.1.trans (by decide), h2.2.2.2⟩

/-- C1 counterexample: two concurrent deliveries of the same valid
175-point Inbrain credit, interleaved so that both duplicate checks run
before either task writes (schedule `[t,f,t,t,t,f,f,f]` over the awaited
store operations), credit the account twice (500 → 850) and insert two
transaction rows with the same external id — refuting the claim that
N concurrent deliveries produce exactly one balance increase of `points`
and exactly one Transaction row. -/
theorem concurrent_redelivery_double_credits :
    balanceOf st1 "u1" = 500 ∧
    balanceOf (exec2 [true, false, true, true, true, false, false, false]
        (inbrainSuccessProc md5c "sec" ibrPair) (inbrainSuccessProc md5c "sec" ibrPair)
        st1) "u1" = 850 ∧
    txnCount (exec2 [true, false, true, true, true, false, false, false]
        (inbrainSuccessProc md5c "sec" ibrPair) (inbrainSuccessProc md5c "sec" ibrPair)
        st1) "rx" = 2 := by decide

/-! ## C5: the balance as a projection of the transaction log -/

/-- One inbound postback, tagged with its route. -/
inductive Event where
  | inbrainSuccess (r : InbrainReq)
  | inbrainFailure (r : InbrainReq)
  | cpx (r : CpxReq)
  | admantium (r : AdmantiumReq)
deriving Repr, DecidableEq

/-- Process one postback: dispatch to its route's handler and keep the
resulting store state. -/
def applyEvent (md5 : String → String) (ibSecret cpxCfg admSecret : String) :
    Event → St → St
  | .inbrainSuccess r, st => (inbrain_success_callback md5 ibSecret r st).1
  | .inbrainFailure r, st => (inbrain_failure_callback md5 ibSecret r st).1
  | .cpx r, st => (cpx_research_callback md5 cpxCfg r st).1
  | .admantium r, st => (admantium_callback md5 admSecret r st).1

/-- Process a sequence of postbacks in order. -/
def applyEvents (md5 : String → String) (ibSecret cpxCfg admSecret : String) :
    List Event → St → St
  | [], st => st
  | e :: es, st =>
    applyEvents md5 ibSecret cpxCfg admSecret es
      (applyEvent md5 ibSecret cpxCfg admSecret e st)

/-- The postback reports a completion (credit outcome) on its route. -/
def IsCreditEvent : Event → Prop
  | .inbrainSuccess _ => True
  | .inbrainFailure _ => False
  | .cpx r => r.status = 1
  | .admantium r => r.status = "credited"

instance : DecidablePred IsCreditEvent := fun e => by
  cases e with
  | inbrainSuccess r => exact isTrue trivial
  | inbrainFailure r => exact isFalse id
  | cpx r => exact inferInstanceAs (Decidable (r.status = 1))
  | admantium r => exact inferInstanceAs (Decidable (r.status = "credited"))

/-- The spec's ledger invariant: user ids are unique and every account's
cached `balance` equals the signed sum of that user's transaction rows
(the balance is replayable from the log). -/
def ledgerInv (st : St) : Prop :=
  (st.users.map Account.user_id).Nodup ∧
  ∀ a ∈ st.users, a.balance = signedSum st a.user_id

instance (st : St) : Decidable (ledgerInv st) := by
  unfold ledgerInv; infer_instance

theorem map_user_id_updateFirst (p : Account → Bool) (f : Account → Account)
    (hf : ∀ x, (f x).user_id = x.user_id) (l : List Account) :
    (updateFirst p f l).map Account.user_id = l.map Account.user_id := by
  induction l with
  | nil => rfl
  | cons x xs ih =>
    by_cases hx : p x
    · simp [updateFirst, hx, hf]
    · simp [updateFirst, hx, ih]

theorem mem_updateFirst_bump (uid : String) (d dt ds : Int) {l : List Account}
    (hnd : (l.map Account.user_id).Nodup) {a' : Account}
    (h : a' ∈ updateFirst (fun a => a.user_id == uid) (bumpAccount d dt ds) l) :
    (∃ a ∈ l, a.user_id = uid ∧ a' = bumpAccount d dt ds a) ∨
      (a' ∈ l ∧ a'.user_id ≠ uid) := by
  induction l with
  | nil => cases h
  | cons x xs ih =>
    rw [List.map_cons, List.nodup_cons] at hnd
    by_cases hx : x.user_id = uid
    · simp only [updateFirst, beq_iff_eq, if_pos hx, List.mem_cons] at h
      rcases h with h | h
      · exact Or.inl ⟨x, List.mem_cons_self x xs, hx, h⟩
      · refine Or.inr ⟨List.mem_cons_of_mem x h, fun hc => hnd.1 ?_⟩
        rw [hx, ← hc]
        exact List.mem_map_of_mem Account.user_id h
    · simp only [updateFirst, beq_iff_eq, if_neg hx, List.mem_cons] at h
      rcases h with h | h
      · exact Or.inr ⟨by rw [h]; exact List.mem_cons_self x xs, by rw [h]; exact hx⟩
      · rcases ih hnd.2 h with ⟨a, ha, h1, h2⟩ | ⟨ha, hne⟩
        · exact Or.inl ⟨a, List.mem_cons_of_mem x ha, h1, h2⟩
        · exact Or.inr ⟨List.mem_cons_of_mem x ha, hne⟩

/-- Crediting `d` points to `uid` and appending a row for `uid` carrying
`d` points moves the balance and the log's signed sum together. -/
theorem ledgerInv_creditStep (st : St) (uid : String) (d dt ds : Int) (t : Txn)
    (hinv : ledgerInv st) (ht_uid : t.user_id = uid) (ht_pts : t.points = d) :
    ledgerInv (insertTxn (incUser st uid d dt ds) t) := by
  obtain ⟨hnd, hbal⟩ := hinv
  have hsum : ∀ u, signedSum (insertTxn (incUser st uid d dt ds) t) u
      = signedSum st u + (if t.user_id == u then t.points else 0) := fun u => by
    rw [signedSum_insertTxn, signedSum_incUser]
  constructor
  · show ((updateFirst _ _ st.users).map Account.user_id).Nodup
    rw [map_user_id_updateFirst (fun a => a.user_id == uid) (bumpAccount d dt ds)
      (fun x => rfl) st.users]
    exact hnd
  · intro a' ha'
    have h := mem_updateFirst_bump uid d dt ds hnd ha'
    rcases h with ⟨a, ha, hauid, rfl⟩ | ⟨ha, hne⟩
    · rw [hsum]
      show a.balance + d = signedSum st (bumpAccount d dt ds a).user_id + _
      have : (bumpAccount d dt ds a).user_id = uid := hauid
      rw [this, hbal a ha, hauid, ht_uid, ht_pts]
      simp
    · rw [hsum, ht_uid]
      have : (uid == a'.user_id) = false := by
        simp only [beq_eq_false_iff_ne, ne_eq]
        exact fun hc => hne hc.symm
      rw [this]
      simpa using hbal a' ha

/-- Processing one credit postback preserves the ledger invariant. -/
theorem ledgerInv_applyEvent (md5 : String → String)
    (ibSecret cpxCfg admSecret : String) (e : Event) (st : St)
    (hinv : ledgerInv st) (hc : IsCreditEvent e) :
    ledgerInv (applyEvent md5 ibSecret cpxCfg admSecret e st) := by
  cases e with
  | inbrainSuccess r =>
    show ledgerInv (inbrain_success_callback md5 ibSecret r st).1
    by_cases hsig : pyLower r.Sig = pyLower (inbrainExpectedSig md5 ibSecret r)
    · cases hdup : findTxn st r.RewardId with
      | some e' => rw [ibs_dup md5 ibSecret r st e' hsig hdup]; exact hinv
      | none =>
        cases huser : findUser st r.PanelistId with
        | none => rw [ibs_user_none md5 ibSecret r st hsig hdup huser]; exact hinv
        | some a =>
          by_cases hpos : 0 < r.Reward
          · rw [ibs_credit md5 ibSecret r st a hsig hdup huser hpos]
            exact ledgerInv_creditStep st r.PanelistId r.Reward r.Reward 1
              (inbrainCreditRow r) hinv rfl rfl
          · rw [ibs_nonpos md5 ibSecret r st a hsig hdup huser hpos]; exact hinv
    · rw [ibs_sig_reject md5 ibSecret r st hsig]; exact hinv
  | inbrainFailure r => exact absurd hc id
  | cpx r =>
    show ledgerInv (cpx_research_callback md5 cpxCfg r st).1
    have hstat : r.status = 1 := hc
    by_cases hacc : CpxAccepted md5 cpxCfg r
    · rw [cpx_gate_skip md5 cpxCfg r st hacc]
      cases huser : findUser st r.user_id with
      | none => rw [cpx_process_user_none r st huser]; exact hinv
      | some a =>
        cases hdup : findTxn st r.trans_id with
        | some e' => rw [cpx_process_credit_dup r st a e' huser hdup hstat]; exact hinv
        | none =>
          rw [cpx_process_credit r st a huser hdup hstat]
          exact ledgerInv_creditStep st r.user_id r.amount_local r.amount_local 1
            (cpxCreditRow r) hinv rfl rfl
    · simp only [CpxAccepted, not_or] at hacc
      rw [cpx_gate_reject md5 cpxCfg r st hacc.1 hacc.2.1 hacc.2.2]
      exact hinv
  | admantium r =>
    show ledgerInv (admantium_callback md5 admSecret r st).1
    have hstat : r.status = "credited" := hc
    by_cases hsig : pyLower r.signature = pyLower (admExpectedSig md5 admSecret r)
    · cases huser : findUser st r.user_id with
      | none => rw [adm_user_none md5 admSecret r st hsig huser]; exact hinv
      | some a =>
        cases hdup : findTxn st r.transaction_id with
        | none =>
          rw [adm_credit_fresh md5 admSecret r st a hsig huser hdup hstat]
          exact ledgerInv_creditStep st r.user_id r.reward r.reward 1
            (admCreditRow r) hinv rfl rfl
        | some e' =>
          by_cases hcomp : e'.status = "completed"
          · rw [adm_credit_dup md5 admSecret r st a e' hsig huser hdup hcomp hstat]
            exact hinv
          · rw [adm_credit_noncompleted md5 admSecret r st a e' hsig huser hdup hcomp hstat]
            exact ledgerInv_creditStep st r.user_id r.reward r.reward 1
              (admCreditRow r) hinv rfl rfl
    · rw [adm_sig_reject md5 admSecret r st hsig]; exact hinv

/-- C5 (amended): as long as only **credit** postbacks are processed
(Inbrain success, CPX completions, Admantium credits), every account's
cached balance stays equal to the signed sum of that user's transaction
rows — the cached counter is a projection replayable from the log.
Reversals that flip an existing row break the equation (see the
counterexample), because the flip rewrites `status` but not `points`
while the deduction is taken from the reversal payload. -/
theorem balance_is_log_projection_for_credits (md5 : String → String)
    (ibSecret cpxCfg admSecret : String) (evs : List Event) (st : St)
    (hinv : ledgerInv st) (hcred : ∀ e ∈ evs, IsCreditEvent e) :
    ledgerInv (applyEvents md5 ibSecret cpxCfg admSecret evs st) := by
  induction evs generalizing st with
  | nil => exact hinv
  | cons e es ih =>
    rw [applyEvents]
    exact ih _
      (ledgerInv_applyEvent md5 ibSecret cpxCfg admSecret e st hinv
        (hcred e (List.mem_cons_self e es)))
      (fun e' he' => hcred e' (List.mem_cons_of_mem e he'))

/-- The CPX completion of the C5 scenarios (100 points, id `t1`). -/
def rcLog : CpxReq :=
  { status := 1, trans_id := "t1", user_id := "u1", amount_local := 100 }

/-- The CPX reversal matching `rcLog`. -/
def rvLog : CpxReq :=
  { status := 2, trans_id := "t1", user_id := "u1", amount_local := 100 }

/-- C5 counterexample: starting from a fresh zero-balance account (where
the invariant holds), a credit of 100 followed by its own exact reversal
leaves the balance at 0 while the only transaction row still carries
points +100 (its status flipped to `reversed` but its `points` field was
never rewritten) — so the balance does not equal the signed sum of the
account's transaction rows, refuting the claim for sequences containing
reversals. -/
theorem reversal_breaks_log_projection :
    ledgerInv st0 ∧
    balanceOf (applyEvents md5c "sec" "" "s" [Event.cpx rcLog, Event.cpx rvLog] st0) "u1" = 0 ∧
    signedSum (applyEvents md5c "sec" "" "s" [Event.cpx rcLog, Event.cpx rvLog] st0) "u1"
      = 100 := by decide

/-- C5 witness: processing the concrete 100-point CPX credit from the
fresh store keeps the invariant. -/
theorem balance_is_log_projection_witness :
    ledgerInv (applyEvents md5c "sec" "" "s" [Event.cpx rcLog] st0) :=
  balance_is_log_projection_for_credits md5c "sec" "" "s" [Event.cpx rcLog] st0
    (by decide) (by decide)

end SurveyPortal
